import Mathlib

/-!
Verification of the WebSocket connection engine (WebSocketService and its
components MessageQueue, ReconnectionManager, HeartbeatManager) against its
natural-language specification.

The TypeScript sources are shallowly embedded: each class becomes a structure,
each method a pure function from the structure (plus the method's inputs) to
the updated structure together with the list of events it emits and the
callbacks it invokes.  Timer- and transport-driven behaviour is embedded as a
labelled transition system (`WebSocketService.step`): a label is either a
public call, the delivery of a transport open/close event to one of the
sockets created so far, or the firing of one of the armed timers, and the
enabling conditions encode the runtime's guarantees (an `open` event is only
delivered to a socket whose `close()` has not been called and that has not yet
opened; every socket delivers at most one `close` event; a one-shot timer
fires at most once per arming).

JavaScript numbers are embedded as `Nat`, and the fractional reconnect delay
multiplier exactly as a numerator/denominator pair; in the range of values
considered (multiplier 3/2, delays far below 2^53) double-precision
arithmetic is exact, so the embedding by natural floor division is faithful.
Per-message callbacks are embedded by
presence flags plus explicit "invoked" outputs.  Logging, the metrics
snapshot projection, URL resolution and inbound message parsing are not
modelled: no claim refers to them.
-/

-- ============================================================================
-- Enumerations (src: types.js)
-- ============================================================================

/-- Connection state enumeration, from `WebSocketState` in types.js. -/
inductive WebSocketState
  | CONNECTING
  | CONNECTED
  | CLOSING
  | CLOSED
  | RECONNECTING
deriving DecidableEq, Repr

/-- Disconnect reason enumeration, from `DisconnectReason` in types.js. -/
inductive DisconnectReason
  | MANUAL
  | NETWORK_ERROR
  | SERVER_CLOSED
  | TIMEOUT
  | MAX_RETRIES_EXCEEDED
  | UNKNOWN
deriving DecidableEq, Repr

/-- Tag of an emitted `error` event (`type` field of the payload). -/
inductive ErrorTag
  | connection
  | send
  | parse
deriving DecidableEq, Repr

/-- An emitted event together with the payload fields the claims refer to,
from the `WebSocketEvent` enumeration and the per-event payloads. -/
inductive WebSocketEvent
  | connected (attempts : Nat)
  | disconnected (reason : DisconnectReason) (code : Nat) (wasAuthenticated : Bool)
  | message_sent
  | error (tag : ErrorTag)
  | reconnect_attempt (attempt maxAttempts : Nat) (delay : Nat)
  | state_change (previousState currentState : WebSocketState)
  | auth_change (isAuthenticated : Bool)
deriving DecidableEq, Repr

-- ============================================================================
-- MessageQueue (src: dist/websocket — MessageQueue.js)
-- ============================================================================

/-- One queued outbound message.  The `onSuccess`/`onError` callbacks are
embedded by presence flags; an invocation of a callback is reported in the
outputs of the operations below. -/
structure QueuedMessage (α : Type) where
  command : α
  timestamp : Nat
  attempts : Nat
  hasOnSuccess : Bool
  hasOnError : Bool
deriving DecidableEq, Repr

/-- The bounded FIFO queue: `queue` field plus the `maxSize` configuration. -/
structure MessageQueue (α : Type) where
  queue : List (QueuedMessage α)
  maxSize : Nat
deriving DecidableEq, Repr

/-- Result of `MessageQueue.enqueue`: the updated queue, the entry (if any)
that was dropped — the source invokes the dropped entry's `onError` callback,
when present, with the queue-overflow error — and the returned boolean. -/
structure EnqueueOutcome (α : Type) where
  queue : MessageQueue α
  dropped : Option (QueuedMessage α)
  returned : Bool
deriving DecidableEq, Repr

/-- `MessageQueue.enqueue`: if the queue length has reached `maxSize`, shift
off the oldest entry (invoking its `onError`, when present, with the overflow
error), then push the new entry; always returns `true`. -/
def MessageQueue.enqueue {α : Type} (q : MessageQueue α) (m : QueuedMessage α) :
    EnqueueOutcome α :=
  if q.maxSize ≤ q.queue.length then
    match q.queue with
    | [] => ⟨⟨[m], q.maxSize⟩, none, true⟩
    | d :: rest => ⟨⟨rest ++ [m], q.maxSize⟩, some d, true⟩
  else ⟨⟨q.queue ++ [m], q.maxSize⟩, none, true⟩

/-- `MessageQueue.flush`: returns all entries in order and empties the queue. -/
def MessageQueue.flush {α : Type} (q : MessageQueue α) :
    MessageQueue α × List (QueuedMessage α) :=
  (⟨[], q.maxSize⟩, q.queue)

/-- `MessageQueue.size` getter. -/
def MessageQueue.size {α : Type} (q : MessageQueue α) : Nat :=
  q.queue.length

/-- `MessageQueue.isEmpty` getter. -/
def MessageQueue.isEmpty {α : Type} (q : MessageQueue α) : Bool :=
  q.queue.length = 0

/-- `MessageQueue.isFull` getter: `queue.length >= maxSize`. -/
def MessageQueue.isFull {α : Type} (q : MessageQueue α) : Bool :=
  q.maxSize ≤ q.queue.length

-- ============================================================================
-- ReconnectionManager (src: dist/websocket/ReconnectionManager.js)
-- ============================================================================

/-- Configuration of the reconnection scheduler.  All delays are naturals
(milliseconds).  The fractional `delayMultiplier` is embedded exactly as the
ratio `multiplierNum / multiplierDen` (the default 1.5 is 3/2); in the range
of values considered, double-precision evaluation of
`Math.floor(currentDelay * delayMultiplier)` is exact and equals the natural
floor division `currentDelay * multiplierNum / multiplierDen`. -/
structure ReconnectionConfig where
  maxAttempts : Nat
  initialDelay : Nat
  maxDelay : Nat
  multiplierNum : Nat
  multiplierDen : Nat
deriving DecidableEq, Repr

/-- Mutable state of `ReconnectionManager`: the attempt counter, the stored
(unclamped) current delay, and the timer/scheduled flags.  The stored
callbacks are not part of the state here: the controller passes all three
callbacks on every `schedule` call, and callback invocations are reported in
`ScheduleOutcome`. -/
structure ReconnectionManager where
  config : ReconnectionConfig
  attempts : Nat
  currentDelay : Nat
  timerArmed : Bool
  isScheduled : Bool
deriving DecidableEq, Repr

/-- Outcome of one `schedule()` call: either the exhaustion callback was
invoked and nothing was armed, or `onAttempt(attempt, maxAttempts, delay)` was
invoked and a one-shot timer was armed for `delay`. -/
inductive ScheduleOutcome
  | exhausted
  | scheduled (attempt maxAttempts delay : Nat)
deriving DecidableEq, Repr

/-- Fresh `ReconnectionManager` as built by the constructor:
`attempts = 0`, `currentDelay = initialDelay`, no timer. -/
def ReconnectionManager.make (cfg : ReconnectionConfig) : ReconnectionManager :=
  ⟨cfg, 0, cfg.initialDelay, false, false⟩

/-- `ReconnectionManager.schedule`: if `attempts >= maxAttempts`, invoke the
exhaustion callback and return without touching any state and without arming
a timer.  Otherwise increment `attempts`, compute
`delay = min(currentDelay, maxDelay)`, invoke `onAttempt`, arm the timer for
`delay`, and store `currentDelay = floor(currentDelay * delayMultiplier)` for
the next call. -/
def ReconnectionManager.schedule (r : ReconnectionManager) :
    ReconnectionManager × ScheduleOutcome :=
  if r.config.maxAttempts ≤ r.attempts then (r, .exhausted)
  else
    ({ r with
        attempts := r.attempts + 1,
        isScheduled := true,
        timerArmed := true,
        currentDelay := r.currentDelay * r.config.multiplierNum / r.config.multiplierDen },
     .scheduled (r.attempts + 1) r.config.maxAttempts (min r.currentDelay r.config.maxDelay))

/-- `ReconnectionManager.cancel`: clears the armed timer and the scheduled
flag. -/
def ReconnectionManager.cancel (r : ReconnectionManager) : ReconnectionManager :=
  { r with timerArmed := false, isScheduled := false }

/-- `ReconnectionManager.reset`: cancel, then zero the attempt counter and
restore `currentDelay` to the configured initial delay. -/
def ReconnectionManager.reset (r : ReconnectionManager) : ReconnectionManager :=
  { r.cancel with attempts := 0, currentDelay := r.config.initialDelay }

/-- The stored-delay recurrence implemented by the source:
`c 0 = initialDelay` and `c (k+1) = floor (c k * multiplier)`. -/
def reconnectDelaySeq (cfg : ReconnectionConfig) : Nat → Nat
  | 0 => cfg.initialDelay
  | k + 1 => reconnectDelaySeq cfg k * cfg.multiplierNum / cfg.multiplierDen

/-- Iterate `schedule` with no intervening `reset`: `scheduleIter r k` is the
state and outcome of the `(k+1)`-st consecutive `schedule()` call starting
from `r`. -/
def scheduleIter (r : ReconnectionManager) : Nat → ReconnectionManager × ScheduleOutcome
  | 0 => r.schedule
  | k + 1 => (scheduleIter r k).1.schedule

/-- The delay formula claimed by the spec, following its words: "the n-th
scheduled delay equals `min(initialDelay * multiplier^(n-1), maxDelay)`,
rounded down".  For an integer bound, the floor of the min is the min of the
floor, and the floor of `initialDelay * (p/q)^(n-1)` is the natural division
`initialDelay * p^(n-1) / q^(n-1)`. -/
def claimedNthDelay (cfg : ReconnectionConfig) (n : Nat) : Nat :=
  min (cfg.initialDelay * cfg.multiplierNum ^ (n - 1) / cfg.multiplierDen ^ (n - 1))
    cfg.maxDelay

-- ============================================================================
-- HeartbeatManager (src: dist/websocket/HeartbeatManager.js)
-- ============================================================================

/-- Configuration of the heartbeat monitor (milliseconds). -/
structure HeartbeatConfig where
  interval : Nat
  timeout : Nat
deriving DecidableEq, Repr

/-- State of `HeartbeatManager`.  The injected callbacks are embedded by
presence flags (`hasSendPing` is true when `start` stored a probe-send
function); timers by armed flags.  `timeoutArmed` models a non-null
`timeoutId`. -/
structure HeartbeatManager where
  config : HeartbeatConfig
  hasSendPing : Bool
  hasOnTimeout : Bool
  hasOnPong : Bool
  intervalArmed : Bool
  timeoutArmed : Bool
  lastPingTime : Nat
  isRunning : Bool
deriving DecidableEq, Repr

/-- `HeartbeatManager.sendHeartbeat`, one interval tick at time `now`:
return immediately when no probe-send function is stored; otherwise record
`lastPingTime = now`, call `sendPing()` (its boolean result — or `false` when
it threw — is the `sent` parameter), and only when it reports success arm the
one-shot timeout timer. -/
def HeartbeatManager.sendHeartbeat (h : HeartbeatManager) (now : Nat) (sent : Bool) :
    HeartbeatManager :=
  if h.hasSendPing then
    let h1 := { h with lastPingTime := now }
    if sent then { h1 with timeoutArmed := true } else h1
  else h

/-- `HeartbeatManager.handlePong` at time `now`: cancel the pending timeout,
and when `lastPingTime > 0` compute `latency = now - lastPingTime` and pass it
to `onPong` when that callback is present.  The second component is the
latency passed to `onPong` (`none` when `onPong` was not invoked). -/
def HeartbeatManager.handlePong (h : HeartbeatManager) (now : Nat) :
    HeartbeatManager × Option Nat :=
  ({ h with timeoutArmed := false },
   if 0 < h.lastPingTime ∧ h.hasOnPong then some (now - h.lastPingTime) else none)

/-- Firing of the armed heartbeat-timeout timer (`handleHeartbeatTimeout`):
only possible while the timer is armed; clears `timeoutId` and invokes
`onTimeout` when present (the boolean reports the invocation). -/
def HeartbeatManager.fireTimeout (h : HeartbeatManager) :
    Option (HeartbeatManager × Bool) :=
  if h.timeoutArmed then some ({ h with timeoutArmed := false }, h.hasOnTimeout)
  else none

-- ============================================================================
-- WebSocketService (src: WebSocketService.js)
-- ============================================================================

/-- Configuration subset relevant to the claims (`url` and `debug` omitted:
they influence only logging and address resolution). -/
structure WebSocketConfig where
  maxReconnectAttempts : Nat
  reconnectDelay : Nat
  maxReconnectDelay : Nat
  multiplierNum : Nat
  multiplierDen : Nat
  connectionTimeout : Nat
  heartbeatInterval : Nat
  heartbeatTimeout : Nat
  autoReconnect : Bool
  maxQueueSize : Nat
deriving DecidableEq, Repr

/-- Default configuration `DEFAULT_CONFIG` (multiplier 1.5 = 3/2). -/
def defaultConfig : WebSocketConfig :=
  ⟨10, 1000, 30000, 3, 2, 10000, 0, 10000, true, 100⟩

/-- Lifecycle phase of one transport socket created by `createConnection`.
`connecting`: created, neither `open` delivered nor `close()` called;
`opened`: `open` delivered; `closingApp`: the service called `close()` but the
`close` event has not yet been delivered; `done`: the `close` event has been
delivered (a socket delivers at most one `close`, and `open` only while
`connecting`). -/
inductive SocketPhase
  | connecting
  | opened
  | closingApp
  | done
deriving DecidableEq, Repr

/-- The monotone counters of `ConnectionMetrics` touched by the modelled code
paths. -/
structure Metrics where
  messagesSent : Nat
  errors : Nat
  reconnectAttempts : Nat
  reconnectSuccesses : Nat
  connects : Nat
  disconnects : Nat
deriving DecidableEq, Repr

/-- The controller state.  `socks` records every socket ever created (index
order), `cur` is the `this.socket` field (index into `socks`, `none` after
`closeConnection` nulled it).  `connTimeoutArmed` models a pending
connect-timeout timer; `hbRunning`/`hbTimeoutArmed` model the heartbeat
interval and pending heartbeat-timeout timers (the latency bookkeeping of
`HeartbeatManager` is modelled separately above; only its timers can affect
the controller state).  Queued commands are numbers. -/
structure WebSocketService where
  config : WebSocketConfig
  state : WebSocketState
  isAuthenticated : Bool
  isManualDisconnect : Bool
  isDestroyed : Bool
  connTimeoutArmed : Bool
  socks : List SocketPhase
  cur : Option Nat
  messageQueue : MessageQueue Nat
  reconnection : ReconnectionManager
  hbRunning : Bool
  hbTimeoutArmed : Bool
  metrics : Metrics
deriving DecidableEq, Repr

/-- A fresh service as built by the constructor: state `CLOSED`, empty queue,
fresh reconnection manager, no sockets, no timers. -/
def WebSocketService.make (cfg : WebSocketConfig) : WebSocketService where
  config := cfg
  state := .CLOSED
  isAuthenticated := false
  isManualDisconnect := false
  isDestroyed := false
  connTimeoutArmed := false
  socks := []
  cur := none
  messageQueue := ⟨[], cfg.maxQueueSize⟩
  reconnection := ReconnectionManager.make
    ⟨cfg.maxReconnectAttempts, cfg.reconnectDelay, cfg.maxReconnectDelay,
     cfg.multiplierNum, cfg.multiplierDen⟩
  hbRunning := false
  hbTimeoutArmed := false
  metrics := ⟨0, 0, 0, 0, 0, 0⟩

/-- `setState`: return unchanged when the new state equals the current one;
otherwise update the state and emit exactly one `state_change` event carrying
the previous and the new state. -/
def WebSocketService.setState (s : WebSocketService) (v : WebSocketState) :
    WebSocketService × List WebSocketEvent :=
  if s.state = v then (s, [])
  else ({ s with state := v }, [.state_change s.state v])

/-- `setAuthenticated`: update the flag and emit `auth_change` only on an
actual change. -/
def WebSocketService.setAuthenticated (s : WebSocketService) (b : Bool) :
    WebSocketService × List WebSocketEvent :=
  if s.isAuthenticated = b then (s, [])
  else ({ s with isAuthenticated := b }, [.auth_change b])

/-- Effect of `socket.close()` on a socket's phase: a socket that has not yet
delivered its `close` event becomes `closingApp` (it can no longer open); a
`done` socket stays `done`. -/
def closeCall : SocketPhase → SocketPhase
  | .connecting => .closingApp
  | .opened => .closingApp
  | .closingApp => .closingApp
  | .done => .done

/-- `closeConnection(reason)`: clear the connect-timeout timer, stop the
heartbeat, call `socket.close(1000, reason)` and null `this.socket` when a
socket is held, and transition to `CLOSED` when not already there.  The
`reason` argument only becomes the textual reason of the close frame; it is
not recorded anywhere and does not reach the `disconnected` event (which is
emitted later by `handleClose` with a reason recomputed from the close code). -/
def WebSocketService.closeConnection (s : WebSocketService) (reason : DisconnectReason) :
    WebSocketService × List WebSocketEvent :=
  let _ := reason
  let s1 := { s with connTimeoutArmed := false, hbRunning := false, hbTimeoutArmed := false }
  let s2 := match s1.cur with
    | some i => { s1 with socks := s1.socks.set i (closeCall (s1.socks.getD i .done)), cur := none }
    | none => s1
  if s2.state ≠ .CLOSED then s2.setState .CLOSED else (s2, [])

/-- `handleConnectionError(reason)` simply delegates to `closeConnection`. -/
def WebSocketService.handleConnectionError (s : WebSocketService)
    (reason : DisconnectReason) : WebSocketService × List WebSocketEvent :=
  s.closeConnection reason

/-- `scheduleReconnect`: set state `RECONNECTING`, then ask the scheduler.
On exhaustion the controller's callback emits an `error` event of type
"connection"; on scheduling it records a reconnect-attempt metric and emits
`reconnect_attempt`. -/
def WebSocketService.scheduleReconnect (s : WebSocketService) :
    WebSocketService × List WebSocketEvent :=
  let p := s.setState .RECONNECTING
  let q := p.1.reconnection.schedule
  match q.2 with
  | .exhausted =>
      ({ p.1 with reconnection := q.1 }, p.2 ++ [.error .connection])
  | .scheduled a m d =>
      ({ p.1 with
          reconnection := q.1,
          metrics := { p.1.metrics with reconnectAttempts := p.1.metrics.reconnectAttempts + 1 } },
       p.2 ++ [.reconnect_attempt a m d])

/-- Close-reason derivation of `handleClose`: `MANUAL` when the
manual-disconnect flag is set, else `NETWORK_ERROR` for code 1006, else
`SERVER_CLOSED` for codes 1000..1003, else `UNKNOWN`.  No branch produces
`TIMEOUT`. -/
def deriveCloseReason (manual : Bool) (code : Nat) : DisconnectReason :=
  if manual then .MANUAL
  else if code = 1006 then .NETWORK_ERROR
  else if 1000 ≤ code ∧ code < 1004 then .SERVER_CLOSED
  else .UNKNOWN

/-- `handleClose(event)` with `code = event.code`: clear the connect-timeout
timer, stop the heartbeat, record a disconnect metric, save the authenticated
flag into `wasAuthenticated` and clear it (without going through
`setAuthenticated`, so no `auth_change` is emitted), derive the reason from
the manual flag and the code, transition to `CLOSED`, emit `disconnected`,
and — unless the disconnect was manual or auto-reconnect is off — schedule a
reconnection attempt. -/
def WebSocketService.handleClose (s : WebSocketService) (code : Nat) :
    WebSocketService × List WebSocketEvent :=
  let s1 := { s with
                connTimeoutArmed := false, hbRunning := false, hbTimeoutArmed := false,
                metrics := { s.metrics with disconnects := s.metrics.disconnects + 1 } }
  let wasAuthenticated := s1.isAuthenticated
  let s2 := { s1 with isAuthenticated := false }
  let reason := deriveCloseReason s2.isManualDisconnect code
  let p := s2.setState .CLOSED
  let evs := p.2 ++ [.disconnected reason code wasAuthenticated]
  if ¬ p.1.isManualDisconnect ∧ p.1.config.autoReconnect then
    let q := p.1.scheduleReconnect
    (q.1, evs ++ q.2)
  else (p.1, evs)

/-- `startHeartbeat`: a no-op when the configured interval is 0 (disabled);
otherwise starts the recurring interval timer. -/
def WebSocketService.startHeartbeat (s : WebSocketService) : WebSocketService :=
  if 0 < s.config.heartbeatInterval then { s with hbRunning := true } else s

/-- `flushQueue`: take all queued messages in FIFO order and re-send each one
through the normal send path.  This runs with state `CONNECTED` and, since
serialization is total in the model, each message is transmitted, recording a
sent metric and emitting `message_sent` (invoking its `onSuccess`, when
present). -/
def WebSocketService.flushQueue (s : WebSocketService) :
    WebSocketService × List WebSocketEvent :=
  let msgs := s.messageQueue.queue
  ({ s with
      messageQueue := ⟨[], s.messageQueue.maxSize⟩,
      metrics := { s.metrics with messagesSent := s.metrics.messagesSent + msgs.length } },
   msgs.map fun _ => .message_sent)

/-- `handleOpen`: clear the connect-timeout timer, transition to `CONNECTED`,
record metrics (a reconnect success when attempts were pending), read the
attempt counter, reset the reconnection manager, emit `connected{attempts}`,
start the heartbeat, and flush the queue. -/
def WebSocketService.handleOpen (s : WebSocketService) :
    WebSocketService × List WebSocketEvent :=
  let s1 := { s with
                connTimeoutArmed := false,
                metrics := { s.metrics with connects := s.metrics.connects + 1 } }
  let p := s1.setState .CONNECTED
  let s2 := if 0 < p.1.reconnection.attempts then
      { p.1 with metrics := { p.1.metrics with
          reconnectSuccesses := p.1.metrics.reconnectSuccesses + 1 } }
    else p.1
  let attempts := s2.reconnection.attempts
  let s3 := { s2 with reconnection := s2.reconnection.reset }
  let s4 := s3.startHeartbeat
  let q := s4.flushQueue
  (q.1, p.2 ++ [.connected attempts] ++ q.2)

/-- `createConnection`: create a new socket (phase `connecting`), point
`this.socket` at it, and arm the connect-timeout timer.  The model's socket
construction is total (the `catch` branch of the source never runs). -/
def WebSocketService.createConnection (s : WebSocketService) : WebSocketService :=
  { s with
      socks := s.socks ++ [.connecting], cur := some s.socks.length,
      connTimeoutArmed := true }

/-- `connect()`: throws when destroyed (modelled as no effect), no-op when
already `CONNECTING` or `CONNECTED`; otherwise clear the manual-disconnect
flag, transition to `CONNECTING` and create a connection. -/
def WebSocketService.connect (s : WebSocketService) :
    WebSocketService × List WebSocketEvent :=
  if s.isDestroyed then (s, [])
  else if s.state = .CONNECTING ∨ s.state = .CONNECTED then (s, [])
  else
    let s1 := { s with isManualDisconnect := false }
    let p := s1.setState .CONNECTING
    (p.1.createConnection, p.2)

/-- `disconnect()`: set the manual-disconnect flag, cancel any scheduled
reconnection, stop the heartbeat, and close with reason `MANUAL`. -/
def WebSocketService.disconnect (s : WebSocketService) :
    WebSocketService × List WebSocketEvent :=
  let s1 := { s with
                isManualDisconnect := true,
                reconnection := s.reconnection.cancel,
                hbRunning := false, hbTimeoutArmed := false }
  s1.closeConnection .MANUAL

/-- `destroy()`: mark destroyed, disconnect, and clear the queue. -/
def WebSocketService.destroy (s : WebSocketService) :
    WebSocketService × List WebSocketEvent :=
  let p := ({ s with isDestroyed := true }).disconnect
  ({ p.1 with messageQueue := ⟨[], p.1.messageQueue.maxSize⟩ }, p.2)

-- ============================================================================
-- send (src: WebSocketService.js, lines 108-179)
-- ============================================================================

/-- The options of a `send` call: `queueOpt` is the `options.queue` field
(`none` when absent); the callbacks are embedded by presence flags. -/
structure SendOptions where
  queueOpt : Option Bool
  hasOnSuccess : Bool
  hasOnError : Bool
deriving DecidableEq, Repr

/-- The result record returned by `send` (the `timestamp` field is omitted:
it is always the call time). -/
structure SendResult where
  success : Bool
  queued : Bool
  error : Option String
deriving DecidableEq, Repr

/-- Everything a `send` call produces: the updated service, the returned
result, whether the per-call `onError`/`onSuccess` callbacks were invoked
synchronously, and the emitted events. -/
structure SendOutcome where
  service : WebSocketService
  result : SendResult
  onErrorInvoked : Bool
  onSuccessInvoked : Bool
  events : List WebSocketEvent
deriving DecidableEq, Repr

/-- `send(command, options)` at time `now`.  When not `CONNECTED`: if the
caller did not pass `queue: false` and the queue is not full, enqueue and
return `{success: false, queued: true}`; otherwise return
`{success: false, queued: false, error}` invoking the caller's `onError`
synchronously when supplied.  When `CONNECTED`: serialization is total in the
model, so the message is transmitted, a sent metric recorded, `message_sent`
emitted, and `onSuccess` invoked when supplied. -/
def WebSocketService.send (s : WebSocketService) (command : Nat) (opts : SendOptions)
    (now : Nat) : SendOutcome :=
  if s.state ≠ .CONNECTED then
    if opts.queueOpt ≠ some false ∧ s.messageQueue.isFull = false then
      let e := s.messageQueue.enqueue ⟨command, now, 0, opts.hasOnSuccess, opts.hasOnError⟩
      { service := { s with messageQueue := e.queue },
        result := ⟨false, true, none⟩,
        onErrorInvoked := false, onSuccessInvoked := false, events := [] }
    else
      { service := s,
        result := ⟨false, false, some "Not connected to server"⟩,
        onErrorInvoked := opts.hasOnError, onSuccessInvoked := false, events := [] }
  else
    { service := { s with
        metrics := { s.metrics with messagesSent := s.metrics.messagesSent + 1 } },
      result := ⟨true, false, none⟩,
      onErrorInvoked := false, onSuccessInvoked := opts.hasOnSuccess,
      events := [.message_sent] }

-- ============================================================================
-- The labelled transition system
-- ============================================================================

/-- One occurrence the event loop can deliver: a public call, a transport
event on socket `i`, or a timer expiry. -/
inductive WsLabel
  | callConnect
  | callDisconnect
  | callDestroy
  | callSend (command : Nat) (queueOpt : Option Bool) (hasOnSuccess hasOnError : Bool) (now : Nat)
  | callSetAuth (b : Bool)
  | socketOpen (i : Nat)
  | socketClose (i : Nat) (code : Nat)
  | connectTimeoutFire
  | reconnectTimerFire
  | hbTick
  | hbTimeoutFire
deriving DecidableEq, Repr

/-- One step of the system.  `none` means the label cannot occur in this
state: transport events respect the socket lifecycle (`open` only while
`connecting`; at most one `close`, and only for a socket that has not yet
delivered it), and a timer fires only while armed.  Timer expiry consumes the
arming before running the callback (a one-shot timer fires once). -/
def WebSocketService.step (s : WebSocketService) :
    WsLabel → Option (WebSocketService × List WebSocketEvent)
  | .callConnect => some s.connect
  | .callDisconnect => some s.disconnect
  | .callDestroy => some s.destroy
  | .callSend c q hs he now =>
      let o := s.send c ⟨q, hs, he⟩ now
      some (o.service, o.events)
  | .callSetAuth b => some (s.setAuthenticated b)
  | .socketOpen i =>
      if s.socks.getD i .done = .connecting then
        some (({ s with socks := s.socks.set i .opened }).handleOpen)
      else none
  | .socketClose i code =>
      if s.socks.getD i .done ≠ .done then
        some (({ s with socks := s.socks.set i .done }).handleClose code)
      else none
  | .connectTimeoutFire =>
      if s.connTimeoutArmed then
        let s1 := { s with connTimeoutArmed := false }
        if s1.state = .CONNECTING then some (s1.handleConnectionError .TIMEOUT)
        else some (s1, [])
      else none
  | .reconnectTimerFire =>
      if s.reconnection.timerArmed then
        some (({ s with
          reconnection := { s.reconnection with timerArmed := false, isScheduled := false } }).connect)
      else none
  | .hbTick =>
      if s.hbRunning then
        if s.state = .CONNECTED ∧ s.cur ≠ none then
          some ({ s with hbTimeoutArmed := true }, [])
        else some (s, [])
      else none
  | .hbTimeoutFire =>
      if s.hbTimeoutArmed then
        some (({ s with hbTimeoutArmed := false }).handleConnectionError .TIMEOUT)
      else none

/-- Run a list of labels from a state, collecting the emitted events;
`none` when some label in the list cannot occur where it appears. -/
def WebSocketService.runTrace (s : WebSocketService) :
    List WsLabel → Option (WebSocketService × List WebSocketEvent)
  | [] => some (s, [])
  | l :: ls =>
    match s.step l with
    | none => none
    | some (s1, e1) =>
      match s1.runTrace ls with
      | none => none
      | some (s2, e2) => some (s2, e1 ++ e2)

/-- True when every socket created so far has delivered its close event. -/
def WebSocketService.socksQuiet (s : WebSocketService) : Bool :=
  s.socks.all (· = .done)

/-- Labels whose handling can create a new socket. -/
def WsLabel.creating : WsLabel → Bool
  | .callConnect => true
  | .reconnectTimerFire => true
  | _ => false

/-- The step function restricted to executions in which `connect` never runs
while the close event of an earlier socket is still undelivered (the
overlapping-socket race). -/
def WebSocketService.stepQuiet (s : WebSocketService) (l : WsLabel) :
    Option (WebSocketService × List WebSocketEvent) :=
  if l.creating ∧ s.socksQuiet = false then none else s.step l

/-- `runTrace` for the restricted step function. -/
def WebSocketService.runTraceQuiet (s : WebSocketService) :
    List WsLabel → Option (WebSocketService × List WebSocketEvent)
  | [] => some (s, [])
  | l :: ls =>
    match s.stepQuiet l with
    | none => none
    | some (s1, e1) =>
      match s1.runTraceQuiet ls with
      | none => none
      | some (s2, e2) => some (s2, e1 ++ e2)

-- ============================================================================
-- Derived notions used by the theorems
-- ============================================================================

/-- Project a `state_change` event to its (previous, current) pair. -/
def scPair : WebSocketEvent → Option (WebSocketState × WebSocketState)
  | .state_change p c => some (p, c)
  | _ => none

/-- The (previous, current) pairs of the `state_change` events of a log, in
emission order. -/
def scPairs (evs : List WebSocketEvent) : List (WebSocketState × WebSocketState) :=
  evs.filterMap scPair

/-- `stateChainB a ps b` holds when the `state_change` pairs `ps` form a
gap-free chain of genuine changes from `a` to `b`: each pair's previous state
is the state reached so far, no pair is a self-loop, and the last pair ends at
`b`.  This is the shape "one `state_change` per actual change, none for a
same-value set, previous/new never skipped". -/
def stateChainB : WebSocketState → List (WebSocketState × WebSocketState) → WebSocketState → Bool
  | a, [], b => a = b
  | a, (p, c) :: rest, b => p = a && !(p = c) && stateChainB c rest b

/-- Recognizer for `disconnected` events. -/
def isDisconnectedEvent : WebSocketEvent → Bool
  | .disconnected _ _ _ => true
  | _ => false

/-- The two-part inductive invariant of the restricted system: a socket still
in `connecting` phase exists only while the controller is `CONNECTING` and is
the socket the controller holds; and at most one socket has not yet delivered
its close event. -/
def WebSocketService.invariant (s : WebSocketService) : Prop :=
  (∀ i, s.socks.getD i .done = .connecting → s.state = .CONNECTING ∧ s.cur = some i) ∧
  (∀ i j, s.socks.getD i .done ≠ .done → s.socks.getD j .done ≠ .done → i = j)

-- ============================================================================
-- Concrete scenarios referred to by individual claims
-- ============================================================================

/-- The default reconnection configuration: 10 attempts, 1000 ms initial,
30000 ms cap, multiplier 3/2. -/
def cfgC2 : ReconnectionConfig := ⟨10, 1000, 30000, 3, 2⟩

/-- Default configuration with `maxReconnectAttempts` 0: the first
`schedule()` call is already exhausted. -/
def cfgC3 : WebSocketConfig := { defaultConfig with maxReconnectAttempts := 0 }

/-- Connect, let the connect-timeout fire while `CONNECTING`, then let the
transport deliver the aborted socket's close event (code 1006). -/
def c1trace : List WsLabel := [.callConnect, .connectTimeoutFire, .socketClose 0 1006]

/-- The final state and event log of the C1 scenario. -/
def c1run : WebSocketService × List WebSocketEvent :=
  ((WebSocketService.make defaultConfig).runTrace c1trace).getD
    (WebSocketService.make defaultConfig, [])

/-- Connect and let the transport close with 1006 under a configuration whose
attempt limit is already reached. -/
def c3trace : List WsLabel := [.callConnect, .socketClose 0 1006]

/-- The final state and event log of the C3 scenario. -/
def c3run : WebSocketService × List WebSocketEvent :=
  ((WebSocketService.make cfgC3).runTrace c3trace).getD
    (WebSocketService.make cfgC3, [])

/-- Default configuration with auto-reconnect disabled. -/
def cfgC6 : WebSocketConfig := { defaultConfig with autoReconnect := false }

/-- The overlapping-socket race: connect, connect-timeout fires (the service
calls `close()` on socket 0 and goes `CLOSED`), the caller connects again
(socket 1, `CONNECTING`), socket 0's still-pending close event is delivered
(the stale handler drives the state back to `CLOSED`), then socket 1 opens. -/
def c6trace : List WsLabel :=
  [.callConnect, .connectTimeoutFire, .callConnect, .socketClose 0 1006, .socketOpen 1]

/-- The final state and event log of the C6 race scenario. -/
def c6run : WebSocketService × List WebSocketEvent :=
  ((WebSocketService.make cfgC6).runTrace c6trace).getD
    (WebSocketService.make cfgC6, [])

/-- An ordinary successful connection: connect, then the socket opens. -/
def c6wtrace : List WsLabel := [.callConnect, .socketOpen 0]

/-- The final state and event log of the ordinary connection, run under the
restricted (non-overlapping-socket) step function. -/
def c6wrun : WebSocketService × List WebSocketEvent :=
  ((WebSocketService.make defaultConfig).runTraceQuiet c6wtrace).getD
    (WebSocketService.make defaultConfig, [])

-- ============================================================================
-- C4: enqueue at capacity drops exactly the oldest entry
-- ============================================================================

/-- C4: for every queue whose size equals its capacity, a further enqueue
drops exactly the oldest entry (invoking its error callback with the overflow
error), appends the new entry at the tail, preserves the FIFO order of the
remaining entries, and leaves the size at the capacity. -/
theorem claim_C4_theorem {α : Type} (q : MessageQueue α) (d m : QueuedMessage α)
    (rest : List (QueuedMessage α)) (hq : q.queue = d :: rest)
    (hlen : q.queue.length = q.maxSize) :
    (q.enqueue m).dropped = some d ∧
    (q.enqueue m).queue.queue = rest ++ [m] ∧
    (q.enqueue m).queue.queue.length = q.maxSize ∧
    (q.enqueue m).returned = true := by
  obtain ⟨qq, cap⟩ := q
  simp only at hq hlen ⊢
  subst hq
  have hge : cap ≤ (d :: rest).length := le_of_eq hlen.symm
  refine ⟨?_, ?_, ?_, ?_⟩
  · simp only [MessageQueue.enqueue, if_pos hge]
  · simp only [MessageQueue.enqueue, if_pos hge]
  · simp only [MessageQueue.enqueue, if_pos hge, List.length_append,
      List.length_singleton]
    simp only [List.length_cons] at hlen
    omega
  · simp only [MessageQueue.enqueue, if_pos hge]

/-- C4 witness: capacity 2, queue [A, B], enqueue C: A (which carries an
error callback) is dropped, the queue becomes [B, C] of size 2. -/
theorem claim_C4_witness :
    ((⟨[⟨1, 0, 0, false, true⟩, ⟨2, 0, 0, false, true⟩], 2⟩ : MessageQueue Nat).enqueue
        ⟨3, 0, 0, false, true⟩).dropped = some ⟨1, 0, 0, false, true⟩ ∧
    ((⟨[⟨1, 0, 0, false, true⟩, ⟨2, 0, 0, false, true⟩], 2⟩ : MessageQueue Nat).enqueue
        ⟨3, 0, 0, false, true⟩).queue.queue = [⟨2, 0, 0, false, true⟩] ++ [⟨3, 0, 0, false, true⟩] ∧
    ((⟨[⟨1, 0, 0, false, true⟩, ⟨2, 0, 0, false, true⟩], 2⟩ : MessageQueue Nat).enqueue
        ⟨3, 0, 0, false, true⟩).queue.queue.length = 2 ∧
    ((⟨[⟨1, 0, 0, false, true⟩, ⟨2, 0, 0, false, true⟩], 2⟩ : MessageQueue Nat).enqueue
        ⟨3, 0, 0, false, true⟩).returned = true :=
  claim_C4_theorem _ ⟨1, 0, 0, false, true⟩ ⟨3, 0, 0, false, true⟩
    [⟨2, 0, 0, false, true⟩] rfl rfl

-- ============================================================================
-- C9: enqueue always returns true; size formula
-- ============================================================================

/-- C9 counterexample: with capacity 0 (a constructible configuration), an
enqueue into the empty queue returns `true` but yields size 1, while the
claimed formula `min (size + 1) capacity` yields 0. -/
theorem claim_C9_counterexample :
    ((⟨[], 0⟩ : MessageQueue Nat).enqueue ⟨5, 0, 0, false, false⟩).returned = true ∧
    ((⟨[], 0⟩ : MessageQueue Nat).enqueue ⟨5, 0, 0, false, false⟩).queue.queue.length = 1 ∧
    min (0 + 1) 0 = 0 ∧
    ((⟨[], 0⟩ : MessageQueue Nat).enqueue ⟨5, 0, 0, false, false⟩).queue.queue.length
      ≠ min (0 + 1) 0 := by
  decide

/-- C9 (amended): enqueue always returns `true` — the overflow path drops the
oldest entry and still appends — and, provided the capacity is at least 1 and
the size does not exceed the capacity (as in every reachable queue state),
the resulting size is `min (size + 1) capacity`.  (With capacity 0 the
resulting size is 1 and the formula fails.) -/
theorem claim_C9_theorem {α : Type} :
    (∀ (q : MessageQueue α) (m : QueuedMessage α), (q.enqueue m).returned = true) ∧
    (∀ (q : MessageQueue α) (m : QueuedMessage α), 1 ≤ q.maxSize →
      q.queue.length ≤ q.maxSize →
      (q.enqueue m).queue.queue.length = min (q.queue.length + 1) q.maxSize) := by
  constructor
  · intro q m
    unfold MessageQueue.enqueue
    split
    · cases q.queue <;> rfl
    · rfl
  · intro q m h1 h2
    obtain ⟨qq, cap⟩ := q
    simp only at h1 h2 ⊢
    simp only [MessageQueue.enqueue]
    split
    · next hge =>
      cases qq with
      | nil =>
        simp only [List.length_nil, Nat.le_zero] at hge
        simp only [List.length_singleton, List.length_nil]
        omega
      | cons d rest =>
        simp only [List.length_cons] at hge h2
        simp only [List.length_append, List.length_singleton, List.length_cons,
          List.length_nil]
        omega
    · next hlt =>
      simp only [List.length_append, List.length_singleton, List.length_cons,
        List.length_nil]
      omega

/-- C9 witness: capacity 2, empty queue: enqueue returns `true` and the size
becomes `min (0 + 1) 2 = 1`. -/
theorem claim_C9_witness :
    ((⟨[], 2⟩ : MessageQueue Nat).enqueue ⟨5, 0, 0, false, false⟩).returned = true ∧
    ((⟨[], 2⟩ : MessageQueue Nat).enqueue ⟨5, 0, 0, false, false⟩).queue.queue.length
      = min (0 + 1) 2 :=
  ⟨claim_C9_theorem.1 ⟨[], 2⟩ ⟨5, 0, 0, false, false⟩,
   claim_C9_theorem.2 ⟨[], 2⟩ ⟨5, 0, 0, false, false⟩ (by decide) (by decide)⟩

-- ============================================================================
-- C5: send while not connected
-- ============================================================================

/-- C5: when the state is not `CONNECTED`, a `send` with queueing allowed and
the queue not full appends the message to the queue and returns
`{success: false, queued: true}` without invoking any callback; a `send` with
queueing declined or the queue full returns `{success: false, queued: false}`
and invokes the caller's `onError` synchronously exactly when one was
supplied. -/
theorem claim_C5_theorem (s : WebSocketService) (c : Nat) (opts : SendOptions)
    (now : Nat) (hst : s.state ≠ .CONNECTED) :
    (opts.queueOpt ≠ some false → s.messageQueue.isFull = false →
      (s.send c opts now).result = ⟨false, true, none⟩ ∧
      (s.send c opts now).service.messageQueue.queue
        = s.messageQueue.queue ++ [⟨c, now, 0, opts.hasOnSuccess, opts.hasOnError⟩] ∧
      (s.send c opts now).onErrorInvoked = false ∧
      (s.send c opts now).onSuccessInvoked = false) ∧
    ((opts.queueOpt = some false ∨ s.messageQueue.isFull = true) →
      (s.send c opts now).result.success = false ∧
      (s.send c opts now).result.queued = false ∧
      (s.send c opts now).onErrorInvoked = opts.hasOnError) := by
  constructor
  · intro hq hfull
    have hcond : opts.queueOpt ≠ some false ∧ s.messageQueue.isFull = false := ⟨hq, hfull⟩
    have hnotfull : ¬ s.messageQueue.maxSize ≤ s.messageQueue.queue.length := by
      simpa [MessageQueue.isFull, decide_eq_false_iff_not] using hfull
    simp only [WebSocketService.send, if_pos hst, if_pos hcond, MessageQueue.enqueue,
      if_neg hnotfull]
    exact ⟨trivial, trivial, trivial, trivial⟩
  · intro hdecl
    have hcond : ¬ (opts.queueOpt ≠ some false ∧ s.messageQueue.isFull = false) := by
      rcases hdecl with h | h
      · exact fun hc => hc.1 h
      · exact fun hc => by rw [h] at hc; exact Bool.noConfusion hc.2
    simp only [WebSocketService.send, if_pos hst, if_neg hcond]
    exact ⟨trivial, trivial, trivial⟩

/-- C5 witness: a freshly constructed service (state `CLOSED`, empty queue of
capacity 100): a queueable send returns `{success: false, queued: true}` and
appends; a send with `queue: false` returns a plain failure and invokes the
supplied `onError`. -/
theorem claim_C5_witness :
    (((WebSocketService.make defaultConfig).send 7 ⟨none, false, true⟩ 5).result
        = ⟨false, true, none⟩ ∧
      ((WebSocketService.make defaultConfig).send 7 ⟨none, false, true⟩ 5).service.messageQueue.queue
        = (WebSocketService.make defaultConfig).messageQueue.queue ++ [⟨7, 5, 0, false, true⟩] ∧
      ((WebSocketService.make defaultConfig).send 7 ⟨none, false, true⟩ 5).onErrorInvoked = false ∧
      ((WebSocketService.make defaultConfig).send 7 ⟨none, false, true⟩ 5).onSuccessInvoked = false) ∧
    (((WebSocketService.make defaultConfig).send 7 ⟨some false, false, true⟩ 5).result.success = false ∧
      ((WebSocketService.make defaultConfig).send 7 ⟨some false, false, true⟩ 5).result.queued = false ∧
      ((WebSocketService.make defaultConfig).send 7 ⟨some false, false, true⟩ 5).onErrorInvoked
        = (⟨some false, false, true⟩ : SendOptions).hasOnError) :=
  ⟨(claim_C5_theorem (WebSocketService.make defaultConfig) 7 ⟨none, false, true⟩ 5
      (by decide)).1 (by decide) (by decide),
   (claim_C5_theorem (WebSocketService.make defaultConfig) 7 ⟨some false, false, true⟩ 5
      (by decide)).2 (Or.inl rfl)⟩

-- ============================================================================
-- C2: the n-th scheduled backoff delay
-- ============================================================================

/-- State and outcome of the n-th consecutive `schedule()` call from a fresh
manager, while attempts remain: after the `(k+1)`-st call the manager holds
`attempts = k + 1` and `currentDelay = c (k+1)` of the floor recurrence, and
the call armed `min (c k) maxDelay`. -/
theorem scheduleIter_closed (cfg : ReconnectionConfig) (k : Nat)
    (hk : k < cfg.maxAttempts) :
    (scheduleIter (ReconnectionManager.make cfg) k).1 =
      ⟨cfg, k + 1, reconnectDelaySeq cfg (k + 1), true, true⟩ ∧
    (scheduleIter (ReconnectionManager.make cfg) k).2 =
      .scheduled (k + 1) cfg.maxAttempts (min (reconnectDelaySeq cfg k) cfg.maxDelay) := by
  induction k with
  | zero =>
    have hnot : ¬ cfg.maxAttempts ≤ 0 := by omega
    simp only [scheduleIter, ReconnectionManager.make, ReconnectionManager.schedule,
      if_neg hnot, reconnectDelaySeq]
    exact ⟨trivial, trivial⟩
  | succ k ih =>
    obtain ⟨h1, _⟩ := ih (by omega)
    have hnot : ¬ cfg.maxAttempts ≤ k + 1 := by omega
    simp only [scheduleIter, h1, ReconnectionManager.schedule, if_neg hnot,
      reconnectDelaySeq]
    exact ⟨trivial, trivial⟩

/-- C2 counterexample: with the default configuration (initialDelay 1000,
multiplier 3/2, maxDelay 30000) the 7th consecutive `schedule()` call arms
11389 ms (floor applied at every step: 1000, 1500, 2250, 3375, 5062, 7593,
11389), while the claimed closed form `floor (min (1000 * (3/2)^6) 30000)`
is 11390. -/
theorem claim_C2_counterexample :
    (scheduleIter (ReconnectionManager.make cfgC2) 6).2 = .scheduled 7 10 11389 ∧
    claimedNthDelay cfgC2 7 = 11390 ∧
    (scheduleIter (ReconnectionManager.make cfgC2) 6).2
      ≠ .scheduled 7 10 (claimedNthDelay cfgC2 7) := by
  decide

/-- C2 (amended): the delay armed on the n-th consecutive `schedule()` call
(1 ≤ n ≤ maxAttempts, no intervening `reset`) equals `min (c (n-1)) maxDelay`,
where `c` is the per-step floor recurrence `c 0 = initialDelay`,
`c (k+1) = floor (c k * multiplier)` — the floor is applied at every step to
the stored delay, so for fractional multipliers the armed delay can differ
from the claimed single-floor closed form `floor (min (initialDelay *
multiplier^(n-1)) maxDelay)`. -/
theorem claim_C2_theorem (cfg : ReconnectionConfig) (n : Nat) (h1 : 1 ≤ n)
    (h2 : n ≤ cfg.maxAttempts) :
    (scheduleIter (ReconnectionManager.make cfg) (n - 1)).2 =
      .scheduled n cfg.maxAttempts (min (reconnectDelaySeq cfg (n - 1)) cfg.maxDelay) := by
  obtain ⟨k, rfl⟩ : ∃ k, n = k + 1 := ⟨n - 1, by omega⟩
  simpa using (scheduleIter_closed cfg k (by omega)).2

/-- C2 witness: third call under the default configuration arms
`min (c 2) 30000 = 2250` ms. -/
theorem claim_C2_witness :
    (scheduleIter (ReconnectionManager.make cfgC2) (3 - 1)).2 =
      .scheduled 3 cfgC2.maxAttempts (min (reconnectDelaySeq cfgC2 (3 - 1)) cfgC2.maxDelay) :=
  claim_C2_theorem cfgC2 3 (by decide) (by decide)

-- ============================================================================
-- C7: heartbeat probe / timeout / acknowledgment
-- ============================================================================

/-- C7: for a heartbeat tick at time `now` (probe-send and timeout callbacks
stored, as the controller always does): a failed probe-send arms nothing; a
successful probe-send arms the timeout, whose expiry invokes the timeout
callback exactly once (a second expiry is impossible without re-arming); and
an acknowledgment before the expiry cancels the pending timeout and reports
latency `now2 - now` to the ack callback. -/
theorem claim_C7_theorem (h : HeartbeatManager) (now now2 : Nat)
    (hsp : h.hasSendPing = true) (hot : h.hasOnTimeout = true)
    (hop : h.hasOnPong = true) (hnow : 0 < now) (_hle : now ≤ now2) :
    (h.sendHeartbeat now false).timeoutArmed = h.timeoutArmed ∧
    (h.sendHeartbeat now true).timeoutArmed = true ∧
    (h.sendHeartbeat now true).fireTimeout
      = some ({ h.sendHeartbeat now true with timeoutArmed := false }, true) ∧
    ({ h.sendHeartbeat now true with timeoutArmed := false } : HeartbeatManager).fireTimeout
      = none ∧
    ((h.sendHeartbeat now true).handlePong now2).1.timeoutArmed = false ∧
    ((h.sendHeartbeat now true).handlePong now2).2 = some (now2 - now) := by
  have hu : h.sendHeartbeat now true
      = { h with lastPingTime := now, timeoutArmed := true } := by
    simp [HeartbeatManager.sendHeartbeat, hsp]
  refine ⟨?_, ?_, ?_, ?_, ?_, ?_⟩
  · simp [HeartbeatManager.sendHeartbeat, hsp]
  · rw [hu]
  · rw [hu]; simp [HeartbeatManager.fireTimeout, hot]
  · rw [hu]; simp [HeartbeatManager.fireTimeout]
  · rw [hu]; simp [HeartbeatManager.handlePong]
  · rw [hu]; simp [HeartbeatManager.handlePong, hop, hnow]

/-- C7 witness: a running heartbeat manager with all callbacks stored, tick
at time 40, acknowledgment at time 65: the failed-send case arms nothing, the
armed timeout fires exactly once, and the acknowledgment reports latency 25. -/
theorem claim_C7_witness :
    ((⟨⟨30000, 10000⟩, true, true, true, true, false, 0, true⟩ : HeartbeatManager).sendHeartbeat
        40 false).timeoutArmed = (⟨⟨30000, 10000⟩, true, true, true, true, false, 0, true⟩ : HeartbeatManager).timeoutArmed ∧
    ((⟨⟨30000, 10000⟩, true, true, true, true, false, 0, true⟩ : HeartbeatManager).sendHeartbeat
        40 true).timeoutArmed = true ∧
    ((⟨⟨30000, 10000⟩, true, true, true, true, false, 0, true⟩ : HeartbeatManager).sendHeartbeat
        40 true).fireTimeout = some ({ (⟨⟨30000, 10000⟩, true, true, true, true, false, 0, true⟩ : HeartbeatManager).sendHeartbeat 40 true with timeoutArmed := false }, true) ∧
    ({ (⟨⟨30000, 10000⟩, true, true, true, true, false, 0, true⟩ : HeartbeatManager).sendHeartbeat 40 true with timeoutArmed := false } : HeartbeatManager).fireTimeout = none ∧
    (((⟨⟨30000, 10000⟩, true, true, true, true, false, 0, true⟩ : HeartbeatManager).sendHeartbeat
        40 true).handlePong 65).1.timeoutArmed = false ∧
    (((⟨⟨30000, 10000⟩, true, true, true, true, false, 0, true⟩ : HeartbeatManager).sendHeartbeat
        40 true).handlePong 65).2 = some (65 - 40) :=
  claim_C7_theorem ⟨⟨30000, 10000⟩, true, true, true, true, false, 0, true⟩ 40 65
    rfl rfl rfl (by decide) (by decide)

-- ============================================================================
-- C8: exhausted schedule is a no-op; successful connect resets
-- ============================================================================

/-- C8: a `schedule()` call with `attempts >= maxAttempts` invokes only the
exhaustion callback and returns the state unchanged (no timer armed, counter
and delay untouched); and after `handleOpen` (a successful connection) the
scheduler is reset: attempt count 0, current delay back to the configured
initial delay, no timer armed. -/
theorem claim_C8_theorem :
    (∀ r : ReconnectionManager, r.config.maxAttempts ≤ r.attempts →
      r.schedule = (r, .exhausted)) ∧
    (∀ s : WebSocketService,
      (s.handleOpen).1.reconnection.attempts = 0 ∧
      (s.handleOpen).1.reconnection.currentDelay = s.reconnection.config.initialDelay ∧
      (s.handleOpen).1.reconnection.timerArmed = false) := by
  constructor
  · intro r hr
    simp [ReconnectionManager.schedule, hr]
  · intro s
    simp only [WebSocketService.handleOpen, WebSocketService.setState,
      WebSocketService.startHeartbeat, WebSocketService.flushQueue,
      ReconnectionManager.reset, ReconnectionManager.cancel]
    split <;> split <;> split <;> exact ⟨rfl, rfl, rfl⟩

/-- C8 witness: a manager with `maxAttempts = 2` and `attempts = 2` is left
unchanged with an exhausted outcome; `handleOpen` on the C3 scenario's final
state resets the counter to 0 and the delay to 1000. -/
theorem claim_C8_witness :
    (⟨⟨2, 1000, 30000, 3, 2⟩, 2, 2250, false, false⟩ : ReconnectionManager).schedule
      = (⟨⟨2, 1000, 30000, 3, 2⟩, 2, 2250, false, false⟩, .exhausted) ∧
    ((c3run.1.handleOpen).1.reconnection.attempts = 0 ∧
      (c3run.1.handleOpen).1.reconnection.currentDelay
        = c3run.1.reconnection.config.initialDelay ∧
      (c3run.1.handleOpen).1.reconnection.timerArmed = false) :=
  ⟨claim_C8_theorem.1 ⟨⟨2, 1000, 30000, 3, 2⟩, 2, 2250, false, false⟩ (by decide),
   claim_C8_theorem.2 c3run.1⟩

-- ============================================================================
-- C10: every handled close clears the authenticated flag silently
-- ============================================================================

/-- C10: after `handleClose` runs, the authenticated flag is `false`
regardless of its prior value; the emitted `disconnected` event carries the
pre-close value in `wasAuthenticated`; and no `auth_change` event is emitted
(the clearing bypasses `setAuthenticated`). -/
theorem claim_C10_theorem (s : WebSocketService) (code : Nat) :
    (s.handleClose code).1.isAuthenticated = false ∧
    WebSocketEvent.disconnected (deriveCloseReason s.isManualDisconnect code) code
      s.isAuthenticated ∈ (s.handleClose code).2 ∧
    ∀ b, WebSocketEvent.auth_change b ∉ (s.handleClose code).2 := by
  unfold WebSocketService.handleClose WebSocketService.scheduleReconnect
    WebSocketService.setState ReconnectionManager.schedule
  dsimp only
  split_ifs <;> simp_all

-- ============================================================================
-- C3: reconnect exhaustion — error event, but state RECONNECTING
-- ============================================================================

/-- C3 counterexample: with `maxReconnectAttempts = 0` the very first
transport close reaches the attempt limit: the controller emits the
`error` event, but its state after handling the exhaustion is
`RECONNECTING`, not `CLOSED` (the `runTrace` is defined, i.e. the scenario is
reachable). -/
theorem claim_C3_counterexample :
    ((WebSocketService.make cfgC3).runTrace c3trace).isSome = true ∧
    WebSocketEvent.error .connection ∈ c3run.2 ∧
    c3run.1.state = .RECONNECTING ∧
    c3run.1.state ≠ .CLOSED := by
  decide

/-- C3 (amended): when the attempt limit is reached on a non-manual close
with auto-reconnect on, the controller emits an `error` event, but the state
after handling the exhaustion is `RECONNECTING`: `scheduleReconnect` sets
`RECONNECTING` before consulting the scheduler and the exhaustion path never
restores `CLOSED` (only a subsequent manual `connect()` leaves this state). -/
theorem claim_C3_theorem (s : WebSocketService) (code : Nat)
    (hm : s.isManualDisconnect = false) (ha : s.config.autoReconnect = true)
    (hex : s.reconnection.config.maxAttempts ≤ s.reconnection.attempts) :
    (s.handleClose code).1.state = .RECONNECTING ∧
    WebSocketEvent.error .connection ∈ (s.handleClose code).2 := by
  unfold WebSocketService.handleClose WebSocketService.scheduleReconnect
    WebSocketService.setState ReconnectionManager.schedule
  dsimp only
  split_ifs <;> simp_all

/-- C3 witness: the fresh service of the zero-attempt configuration handles a
1006 close: it ends `RECONNECTING` having emitted the `error` event. -/
theorem claim_C3_witness :
    ((WebSocketService.make cfgC3).handleClose 1006).1.state = .RECONNECTING ∧
    WebSocketEvent.error .connection ∈ ((WebSocketService.make cfgC3).handleClose 1006).2 :=
  claim_C3_theorem (WebSocketService.make cfgC3) 1006 rfl rfl (by decide)

-- ============================================================================
-- C1: the disconnected event after a timeout never carries TIMEOUT
-- ============================================================================

/-- C1: the close handler derives the `disconnected` reason only from the
manual flag and the transport close code — no combination yields `TIMEOUT`
(the reason passed to `closeConnection` by the connect-timeout and
heartbeat-timeout paths only becomes the textual close reason and is
discarded).  Concretely, in the connect-timeout scenario (`c1trace`) the
single `disconnected` event carries `NETWORK_ERROR`, not `TIMEOUT`. -/
theorem claim_C1_theorem :
    (∀ (manual : Bool) (code : Nat), deriveCloseReason manual code ≠ .TIMEOUT) ∧
    ((WebSocketService.make defaultConfig).runTrace c1trace).isSome = true ∧
    c1run.2.filter isDisconnectedEvent
      = [.disconnected .NETWORK_ERROR 1006 false] := by
  refine ⟨?_, by decide, by decide⟩
  intro manual code
  unfold deriveCloseReason
  split_ifs <;> simp

-- ============================================================================
-- C6 machinery: chains of state-change events
-- ============================================================================

/-- Chains compose. -/
theorem stateChainB_append {a b c : WebSocketState}
    {l1 l2 : List (WebSocketState × WebSocketState)}
    (h1 : stateChainB a l1 b = true) (h2 : stateChainB b l2 c = true) :
    stateChainB a (l1 ++ l2) c = true := by
  induction l1 generalizing a with
  | nil =>
    simp only [stateChainB, decide_eq_true_eq] at h1
    simpa [h1] using h2
  | cons hd rest ih =>
    obtain ⟨p, q⟩ := hd
    simp only [stateChainB, Bool.and_eq_true, decide_eq_true_eq] at h1 ⊢
    exact ⟨⟨h1.1.1, h1.1.2⟩, ih h1.2⟩

/-- `scPairs` distributes over append. -/
theorem scPairs_append (e1 e2 : List WebSocketEvent) :
    scPairs (e1 ++ e2) = scPairs e1 ++ scPairs e2 :=
  List.filterMap_append e1 e2 scPair

/-- `setState`: the resulting state, the chain shape of the emitted events
(empty on a same-value set, exactly one non-trivial link otherwise), and the
characterization of the emitted pair. -/
theorem setState_spec (s : WebSocketService) (v : WebSocketState) :
    (s.setState v).1.state = v ∧
    stateChainB s.state (scPairs (s.setState v).2) v = true ∧
    (∀ pr cu, (pr, cu) ∈ scPairs (s.setState v).2 → pr = s.state ∧ cu = v) := by
  unfold WebSocketService.setState
  split_ifs with h
  · subst h
    simp [scPairs, scPair, stateChainB]
  · simp [scPairs, scPair, stateChainB, h]

/-- `closeConnection` leaves state `CLOSED`, nulls the socket reference, and
either keeps `socks` (no socket held) or marks the held socket closed. -/
theorem closeConnection_fields (s : WebSocketService) (r : DisconnectReason) :
    (s.closeConnection r).1.state = .CLOSED ∧
    (s.closeConnection r).1.cur = none ∧
    ((s.cur = none ∧ (s.closeConnection r).1.socks = s.socks) ∨
      (∃ i, s.cur = some i ∧
        (s.closeConnection r).1.socks = s.socks.set i (closeCall (s.socks.getD i .done)))) := by
  unfold WebSocketService.closeConnection WebSocketService.setState
  rcases hc : s.cur with _ | i
  · dsimp only
    split_ifs with h <;> simp_all
  · dsimp only
    split_ifs with h <;> simp_all

/-- The events of `closeConnection` chain the entry state to `CLOSED`, and
every emitted `state_change` targets `CLOSED`. -/
theorem closeConnection_chain (s : WebSocketService) (r : DisconnectReason) :
    stateChainB s.state (scPairs (s.closeConnection r).2) .CLOSED = true ∧
    (∀ pr cu, (pr, cu) ∈ scPairs (s.closeConnection r).2 → cu = .CLOSED) := by
  unfold WebSocketService.closeConnection WebSocketService.setState
  rcases hc : s.cur with _ | i
  · dsimp only
    split_ifs with h <;> simp_all [scPairs, scPair, stateChainB]
  · dsimp only
    split_ifs with h <;> simp_all [scPairs, scPair, stateChainB]

/-- `scheduleReconnect` leaves state `RECONNECTING` without touching sockets,
its events chain the entry state to `RECONNECTING`, and every emitted
`state_change` targets `RECONNECTING`. -/
theorem scheduleReconnect_spec (s : WebSocketService) :
    (s.scheduleReconnect).1.state = .RECONNECTING ∧
    (s.scheduleReconnect).1.socks = s.socks ∧
    (s.scheduleReconnect).1.cur = s.cur ∧
    stateChainB s.state (scPairs (s.scheduleReconnect).2) .RECONNECTING = true ∧
    (∀ pr cu, (pr, cu) ∈ scPairs (s.scheduleReconnect).2 → cu = .RECONNECTING) := by
  unfold WebSocketService.scheduleReconnect WebSocketService.setState
    ReconnectionManager.schedule
  by_cases hex : s.reconnection.config.maxAttempts ≤ s.reconnection.attempts
  · simp only [if_pos hex]
    split_ifs with h <;>
      simp_all [scPairs, scPair, stateChainB, List.filterMap_cons]
  · simp only [if_neg hex]
    split_ifs with h <;>
      simp_all [scPairs, scPair, stateChainB, List.filterMap_cons]

/-- `setState` only replaces the `state` field (by structure eta, the
same-value branch returns the same record). -/
theorem setState_result (s : WebSocketService) (v : WebSocketState) :
    (s.setState v).1 = { s with state := v } := by
  unfold WebSocketService.setState
  split_ifs with h
  · subst h
    rfl
  · rfl

/-- A `disconnected` event contributes no state-change pair. -/
theorem scPairs_disconnected (r : DisconnectReason) (c : Nat) (w : Bool) :
    scPairs [.disconnected r c w] = [] := rfl

/-- The empty chain at a state. -/
theorem stateChainB_nil (a : WebSocketState) : stateChainB a [] a = true := by
  simp [stateChainB]

/-- `setState` chain, stated from an explicit start state (for use on
record-expression receivers). -/
theorem setState_chain (s : WebSocketService) (a v : WebSocketState) (ha : s.state = a) :
    stateChainB a (scPairs (s.setState v).2) v = true := by
  rw [← ha]
  exact (setState_spec s v).2.1

/-- `scheduleReconnect` chain, stated from an explicit start state. -/
theorem scheduleReconnect_chain (s : WebSocketService) (a : WebSocketState)
    (ha : s.state = a) :
    stateChainB a (scPairs (s.scheduleReconnect).2) .RECONNECTING = true := by
  rw [← ha]
  exact (scheduleReconnect_spec s).2.2.2.1

/-- `closeConnection` chain, stated from an explicit start state. -/
theorem closeConnection_chain2 (s : WebSocketService) (r : DisconnectReason)
    (a : WebSocketState) (ha : s.state = a) :
    stateChainB a (scPairs (s.closeConnection r).2) .CLOSED = true := by
  rw [← ha]
  exact (closeConnection_chain s r).1

/-- `handleClose` does not touch the socket list or the socket reference; its
final state is `CLOSED` (manual close or auto-reconnect off) or
`RECONNECTING`; and every emitted `state_change` targets `CLOSED` or
`RECONNECTING`. -/
theorem handleClose_spec (s : WebSocketService) (code : Nat) :
    (s.handleClose code).1.socks = s.socks ∧
    (s.handleClose code).1.cur = s.cur ∧
    ((s.handleClose code).1.state = .CLOSED ∨ (s.handleClose code).1.state = .RECONNECTING) ∧
    (∀ pr cu, (pr, cu) ∈ scPairs (s.handleClose code).2 →
      cu = .CLOSED ∨ cu = .RECONNECTING) := by
  unfold WebSocketService.handleClose
  dsimp only
  rw [setState_result]
  split_ifs with hr
  · refine ⟨?_, ?_, ?_, ?_⟩
    · rw [(scheduleReconnect_spec _).2.1]
    · rw [(scheduleReconnect_spec _).2.2.1]
    · exact Or.inr (scheduleReconnect_spec _).1
    · intro pr cu hmem
      rw [scPairs_append, scPairs_append, scPairs_disconnected, List.append_nil] at hmem
      rcases List.mem_append.mp hmem with hm | hm
      · exact Or.inl ((setState_spec _ .CLOSED).2.2 pr cu hm).2
      · exact Or.inr ((scheduleReconnect_spec _).2.2.2.2 pr cu hm)
  · refine ⟨rfl, rfl, Or.inl rfl, ?_⟩
    intro pr cu hmem
    rw [scPairs_append, scPairs_disconnected, List.append_nil] at hmem
    exact Or.inl ((setState_spec _ .CLOSED).2.2 pr cu hmem).2

/-- `handleClose` chain, stated from an explicit start state. -/
theorem handleClose_chain (s : WebSocketService) (code : Nat) (a : WebSocketState)
    (ha : s.state = a) :
    stateChainB a (scPairs (s.handleClose code).2) (s.handleClose code).1.state = true := by
  subst ha
  unfold WebSocketService.handleClose
  dsimp only
  rw [setState_result]
  split_ifs with hr
  · rw [scPairs_append, scPairs_append, scPairs_disconnected, List.append_nil,
      (scheduleReconnect_spec _).1]
    exact stateChainB_append (setState_chain _ _ .CLOSED rfl)
      (scheduleReconnect_chain _ _ rfl)
  · rw [scPairs_append, scPairs_disconnected, List.append_nil]
    exact setState_chain _ _ .CLOSED rfl

/-- A `connected` event contributes no state-change pair. -/
theorem scPairs_connected (n : Nat) : scPairs [.connected n] = [] := rfl

/-- Re-sent queued messages contribute no state-change pairs. -/
theorem scPairs_msgs (l : List (QueuedMessage Nat)) :
    scPairs (l.map fun _ => WebSocketEvent.message_sent) = [] := by
  induction l with
  | nil => rfl
  | cons a t ih => simp only [List.map_cons, scPairs, List.filterMap_cons, scPair]; exact ih

/-- `handleOpen` does not touch the socket list or the socket reference,
leaves state `CONNECTED`, and its only `state_change` (if any) goes from the
entry state to `CONNECTED`. -/
theorem handleOpen_spec (s : WebSocketService) :
    (s.handleOpen).1.socks = s.socks ∧
    (s.handleOpen).1.cur = s.cur ∧
    (s.handleOpen).1.state = .CONNECTED ∧
    (∀ pr cu, (pr, cu) ∈ scPairs (s.handleOpen).2 → pr = s.state ∧ cu = .CONNECTED) := by
  unfold WebSocketService.handleOpen WebSocketService.startHeartbeat
    WebSocketService.flushQueue
  dsimp only
  rw [setState_result]
  split_ifs with h1 h2 <;>
    refine ⟨rfl, rfl, rfl, ?_⟩ <;>
    · intro pr cu hmem
      rw [scPairs_append, scPairs_append, scPairs_connected, scPairs_msgs,
        List.append_nil, List.append_nil] at hmem
      have hh := (setState_spec _ .CONNECTED).2.2 pr cu hmem
      exact hh

/-- `handleOpen` chain, stated from an explicit start state, ending at the
resulting state. -/
theorem handleOpen_chain (s : WebSocketService) (a : WebSocketState)
    (ha : s.state = a) :
    stateChainB a (scPairs (s.handleOpen).2) (s.handleOpen).1.state = true := by
  subst ha
  rw [(handleOpen_spec s).2.2.1]
  unfold WebSocketService.handleOpen WebSocketService.startHeartbeat
    WebSocketService.flushQueue
  dsimp only
  rw [setState_result]
  split_ifs with h1 h2 <;>
    · rw [scPairs_append, scPairs_append, scPairs_connected, scPairs_msgs,
        List.append_nil, List.append_nil]
      exact setState_chain _ _ .CONNECTED rfl

/-- `connect` either does nothing (destroyed, or already
CONNECTING/CONNECTED) or moves to `CONNECTING` having appended a fresh
`connecting` socket that the service now holds. -/
theorem connect_spec (s : WebSocketService) :
    ((s.connect).1 = s ∧ (s.connect).2 = []) ∨
    ((s.connect).1.state = .CONNECTING ∧
      (s.connect).1.socks = s.socks ++ [.connecting] ∧
      (s.connect).1.cur = some s.socks.length) := by
  unfold WebSocketService.connect WebSocketService.createConnection
  dsimp only
  split_ifs with h1 h2
  · exact Or.inl ⟨rfl, rfl⟩
  · exact Or.inl ⟨rfl, rfl⟩
  · rw [setState_result]
    exact Or.inr ⟨rfl, rfl, rfl⟩

/-- Every `state_change` emitted by `connect` targets `CONNECTING`. -/
theorem connect_targets (s : WebSocketService) :
    ∀ pr cu, (pr, cu) ∈ scPairs (s.connect).2 → cu = .CONNECTING := by
  unfold WebSocketService.connect WebSocketService.createConnection
  dsimp only
  split_ifs with h1 h2
  · intro pr cu hmem
    simp [scPairs] at hmem
  · intro pr cu hmem
    simp [scPairs] at hmem
  · intro pr cu hmem
    exact ((setState_spec _ .CONNECTING).2.2 pr cu hmem).2

/-- `connect` chain, stated from an explicit start state, ending at the
resulting state. -/
theorem connect_chain (s : WebSocketService) (a : WebSocketState)
    (ha : s.state = a) :
    stateChainB a (scPairs (s.connect).2) (s.connect).1.state = true := by
  subst ha
  unfold WebSocketService.connect WebSocketService.createConnection
  dsimp only
  split_ifs with h1 h2
  · exact stateChainB_nil _
  · exact stateChainB_nil _
  · rw [setState_result]
    exact setState_chain _ _ .CONNECTING rfl

/-- `closeConnection` chain ending at the resulting state. -/
theorem closeConnection_chain3 (s : WebSocketService) (r : DisconnectReason)
    (a : WebSocketState) (ha : s.state = a) :
    stateChainB a (scPairs (s.closeConnection r).2) (s.closeConnection r).1.state = true := by
  rw [(closeConnection_fields s r).1]
  exact closeConnection_chain2 s r a ha

/-- `disconnect` chain ending at the resulting state. -/
theorem disconnect_chain (s : WebSocketService) (a : WebSocketState)
    (ha : s.state = a) :
    stateChainB a (scPairs (s.disconnect).2) (s.disconnect).1.state = true := by
  unfold WebSocketService.disconnect
  dsimp only
  exact closeConnection_chain3 _ .MANUAL a ha

/-- `destroy` chain ending at the resulting state. -/
theorem destroy_chain (s : WebSocketService) (a : WebSocketState)
    (ha : s.state = a) :
    stateChainB a (scPairs (s.destroy).2) (s.destroy).1.state = true := by
  unfold WebSocketService.destroy
  dsimp only
  exact disconnect_chain _ a ha

/-- `send` changes neither the enumerated state nor the sockets, and emits no
`state_change`. -/
theorem send_fields (s : WebSocketService) (c : Nat) (o : SendOptions) (now : Nat) :
    (s.send c o now).service.socks = s.socks ∧
    (s.send c o now).service.cur = s.cur ∧
    (s.send c o now).service.state = s.state ∧
    scPairs (s.send c o now).events = [] := by
  unfold WebSocketService.send
  split_ifs <;> exact ⟨rfl, rfl, rfl, rfl⟩

/-- `setAuthenticated` changes neither the enumerated state nor the sockets,
and emits no `state_change`. -/
theorem setAuthenticated_fields (s : WebSocketService) (b : Bool) :
    (s.setAuthenticated b).1.socks = s.socks ∧
    (s.setAuthenticated b).1.cur = s.cur ∧
    (s.setAuthenticated b).1.state = s.state ∧
    scPairs (s.setAuthenticated b).2 = [] := by
  unfold WebSocketService.setAuthenticated
  split_ifs <;> exact ⟨rfl, rfl, rfl, rfl⟩

/-- Transport a chain along an equation between result pairs. -/
theorem chain_of_pair {s : WebSocketService} {p : WebSocketService × List WebSocketEvent}
    {s' : WebSocketService} {evs : List WebSocketEvent} (h : p = (s', evs))
    (hc : stateChainB s.state (scPairs p.2) p.1.state = true) :
    stateChainB s.state (scPairs evs) s'.state = true := by
  rw [h] at hc
  exact hc

/-- Every step's events chain the pre-state to the post-state: one
`state_change` per actual change, none for a same-value set, previous/new
never skipped. -/
theorem step_chain (s : WebSocketService) (l : WsLabel) (s' : WebSocketService)
    (evs : List WebSocketEvent) (h : s.step l = some (s', evs)) :
    stateChainB s.state (scPairs evs) s'.state = true := by
  cases l with
  | callConnect =>
    simp only [WebSocketService.step] at h
    exact chain_of_pair (Option.some.inj h) (connect_chain s s.state rfl)
  | callDisconnect =>
    simp only [WebSocketService.step] at h
    exact chain_of_pair (Option.some.inj h) (disconnect_chain s s.state rfl)
  | callDestroy =>
    simp only [WebSocketService.step] at h
    exact chain_of_pair (Option.some.inj h) (destroy_chain s s.state rfl)
  | callSend c q hs he now =>
    simp only [WebSocketService.step] at h
    refine chain_of_pair (Option.some.inj h) ?_
    rw [(send_fields s c ⟨q, hs, he⟩ now).2.2.2, (send_fields s c ⟨q, hs, he⟩ now).2.2.1]
    exact stateChainB_nil _
  | callSetAuth b =>
    simp only [WebSocketService.step] at h
    refine chain_of_pair (Option.some.inj h) ?_
    rw [(setAuthenticated_fields s b).2.2.2, (setAuthenticated_fields s b).2.2.1]
    exact stateChainB_nil _
  | socketOpen i =>
    simp only [WebSocketService.step] at h
    split_ifs at h with hc
    exact chain_of_pair (Option.some.inj h) (handleOpen_chain _ s.state rfl)
  | socketClose i code =>
    simp only [WebSocketService.step] at h
    split_ifs at h with hc
    exact chain_of_pair (Option.some.inj h) (handleClose_chain _ code s.state rfl)
  | connectTimeoutFire =>
    simp only [WebSocketService.step] at h
    split_ifs at h with hc hs2
    · exact chain_of_pair (Option.some.inj h) (closeConnection_chain3 _ .TIMEOUT s.state rfl)
    · refine chain_of_pair (Option.some.inj h) ?_
      exact stateChainB_nil _
  | reconnectTimerFire =>
    simp only [WebSocketService.step] at h
    split_ifs at h with hc
    exact chain_of_pair (Option.some.inj h) (connect_chain _ s.state rfl)
  | hbTick =>
    simp only [WebSocketService.step] at h
    split_ifs at h with hc hs2
    · exact chain_of_pair (Option.some.inj h) (stateChainB_nil _)
    · exact chain_of_pair (Option.some.inj h) (stateChainB_nil _)
  | hbTimeoutFire =>
    simp only [WebSocketService.step] at h
    split_ifs at h with hc
    exact chain_of_pair (Option.some.inj h) (closeConnection_chain3 _ .TIMEOUT s.state rfl)

/-- The full event log of any run chains the initial state to the final
state. -/
theorem runTrace_chain (trace : List WsLabel) (s s' : WebSocketService)
    (evs : List WebSocketEvent) (h : s.runTrace trace = some (s', evs)) :
    stateChainB s.state (scPairs evs) s'.state = true := by
  induction trace generalizing s evs with
  | nil =>
    simp only [WebSocketService.runTrace, Option.some.injEq] at h
    exact chain_of_pair h (stateChainB_nil _)
  | cons l ls ih =>
    simp only [WebSocketService.runTrace] at h
    rcases hstep : s.step l with _ | p
    · rw [hstep] at h
      exact absurd h (by simp)
    · rw [hstep] at h
      obtain ⟨s1, e1⟩ := p
      dsimp only at h
      rcases hrun : s1.runTrace ls with _ | q
      · rw [hrun] at h
        exact absurd h (by simp)
      · rw [hrun] at h
        obtain ⟨s2, e2⟩ := q
        dsimp only at h
        simp only [Option.some.injEq] at h
        have hs2 : s2 = s' := congrArg Prod.fst h
        have hevs : e1 ++ e2 = evs := congrArg Prod.snd h
        subst hs2
        subst hevs
        rw [scPairs_append]
        exact stateChainB_append (step_chain s l s1 e1 hstep) (ih s1 e2 hrun)

-- ============================================================================
-- C6 machinery: the socket-phase invariant
-- ============================================================================

/-- Out-of-range lookups yield the default phase. -/
theorem getD_of_le {l : List SocketPhase} {i : Nat} (h : l.length ≤ i) :
    l.getD i .done = .done := by
  simp [List.getD, List.getElem?_eq_none h]

/-- A non-`done` lookup is in range. -/
theorem lt_of_getD_ne_done {l : List SocketPhase} {i : Nat}
    (h : l.getD i .done ≠ .done) : i < l.length := by
  by_contra hc
  exact h (getD_of_le (le_of_not_lt hc))

/-- In-range `set` updates the looked-up phase. -/
theorem getD_set_self (l : List SocketPhase) (i : Nat) (x : SocketPhase)
    (h : i < l.length) : (l.set i x).getD i .done = x := by
  simp [List.getD, List.getElem?_set_self', h]

/-- `set` elsewhere does not change a lookup. -/
theorem getD_set_ne (l : List SocketPhase) (i j : Nat) (x : SocketPhase)
    (h : i ≠ j) : (l.set i x).getD j .done = l.getD j .done := by
  simp [List.getD, List.getElem?_set_ne h]

/-- Looking up in `l ++ [x]`. -/
theorem getD_append_single (l : List SocketPhase) (x : SocketPhase) (m : Nat) :
    (l ++ [x]).getD m .done =
      if m < l.length then l.getD m .done
      else if m = l.length then x else .done := by
  split_ifs with h1 h2
  · simp [List.getD, List.getElem?_append_left h1]
  · subst h2
    simp [List.getD, List.getElem?_append_right (le_refl _)]
  · have hle : l.length ≤ m := le_of_not_lt h1
    have hlt : l.length < m := lt_of_le_of_ne hle (fun h => h2 h.symm)
    simp [List.getD, List.getElem?_append_right hle, List.getElem?_eq_none
      (by simp; omega : ([x] : List SocketPhase).length ≤ m - l.length)]

/-- `close()` never leaves a socket in `connecting` phase. -/
theorem closeCall_ne_connecting (p : SocketPhase) : closeCall p ≠ .connecting := by
  cases p <;> simp [closeCall]

/-- `close()` preserves whether the close event is still pending. -/
theorem closeCall_done_iff (p : SocketPhase) : closeCall p = .done ↔ p = .done := by
  cases p <;> simp [closeCall]

/-- A `connecting` lookup in `l.set i x` is the new phase or an old one. -/
theorem connecting_of_set {l : List SocketPhase} {i m : Nat} {x : SocketPhase}
    (hm : (l.set i x).getD m .done = .connecting) :
    (x = .connecting ∧ m = i) ∨ l.getD m .done = .connecting := by
  by_cases hmi : m = i
  · subst hmi
    by_cases hlt : m < l.length
    · rw [getD_set_self _ _ _ hlt] at hm
      exact Or.inl ⟨hm, rfl⟩
    · rw [List.set_eq_of_length_le (le_of_not_lt hlt)] at hm
      exact Or.inr hm
  · rw [getD_set_ne _ _ _ _ (fun h => hmi h.symm)] at hm
    exact Or.inr hm

/-- A non-`done` lookup in `l.set i x` is the new phase (in range) or an old
non-`done` one. -/
theorem nonDone_of_set {l : List SocketPhase} {i m : Nat} {x : SocketPhase}
    (hm : (l.set i x).getD m .done ≠ .done) :
    (m = i ∧ i < l.length ∧ x ≠ .done) ∨ l.getD m .done ≠ .done := by
  by_cases hmi : m = i
  · subst hmi
    by_cases hlt : m < l.length
    · rw [getD_set_self _ _ _ hlt] at hm
      exact Or.inl ⟨rfl, hlt, hm⟩
    · rw [List.set_eq_of_length_le (le_of_not_lt hlt)] at hm
      exact Or.inr hm
  · rw [getD_set_ne _ _ _ _ (fun h => hmi h.symm)] at hm
    exact Or.inr hm

/-- The invariant only depends on the sockets, the state, and the socket
reference. -/
theorem invariant_congr {s t : WebSocketService} (hso : t.socks = s.socks)
    (hst : t.state = s.state) (hcu : t.cur = s.cur) (h : s.invariant) :
    t.invariant := by
  unfold WebSocketService.invariant at *
  rw [hso, hst, hcu]
  exact h

/-- Under a quiet socket list every lookup is `done`. -/
theorem socksQuiet_getD {s : WebSocketService} (h : s.socksQuiet = true) (i : Nat) :
    s.socks.getD i .done = .done := by
  unfold WebSocketService.socksQuiet at h
  rcases hg : s.socks[i]? with _ | x
  · simp [List.getD, hg]
  · obtain ⟨hlt, rfl⟩ := List.getElem?_eq_some.mp hg
    have := List.all_eq_true.mp h _ (List.getElem_mem hlt)
    simp only [decide_eq_true_eq] at this
    simp [List.getD, hg, this]

/-- A fresh service satisfies the invariant. -/
theorem invariant_make (cfg : WebSocketConfig) :
    (WebSocketService.make cfg).invariant := by
  constructor
  · intro i hci
    rw [show (WebSocketService.make cfg).socks = [] from rfl] at hci
    simp [List.getD] at hci
  · intro i j hi _
    exfalso
    rw [show (WebSocketService.make cfg).socks = [] from rfl] at hi
    simp [List.getD] at hi

/-- `closeConnection` preserves the invariant (the resulting state is
`CLOSED` and no socket is left `connecting`). -/
theorem closeConnection_inv (s : WebSocketService) (r : DisconnectReason)
    (hinv : s.invariant) : (s.closeConnection r).1.invariant := by
  obtain ⟨hstate, hcur, hso⟩ := closeConnection_fields s r
  constructor
  · intro i hci
    exfalso
    rcases hso with ⟨hnone, hsocks⟩ | ⟨j, hj, hsocks⟩
    · rw [hsocks] at hci
      have := (hinv.1 i hci).2
      rw [hnone] at this
      exact Option.noConfusion this
    · rw [hsocks] at hci
      rcases connecting_of_set hci with ⟨hx, _⟩ | hm
      · exact closeCall_ne_connecting _ hx
      · have hji := (hinv.1 i hm).2
        rw [hj] at hji
        have hij : i = j := Option.some.inj hji.symm
        subst hij
        have hlt : i < s.socks.length :=
          lt_of_getD_ne_done (by rw [hm]; exact fun h => SocketPhase.noConfusion h)
        rw [getD_set_self _ _ _ hlt] at hci
        exact closeCall_ne_connecting _ hci
  · intro i j hi hj
    rcases hso with ⟨_, hsocks⟩ | ⟨k, hk, hsocks⟩
    · rw [hsocks] at hi hj
      exact hinv.2 i j hi hj
    · rw [hsocks] at hi hj
      have hi' : s.socks.getD i .done ≠ .done := by
        rcases nonDone_of_set hi with ⟨rfl, hlt, hx⟩ | hold
        · rw [getD_set_self _ _ _ hlt] at hi
          exact fun hd => hi ((closeCall_done_iff _).mpr hd)
        · exact hold
      have hj' : s.socks.getD j .done ≠ .done := by
        rcases nonDone_of_set hj with ⟨rfl, hlt, hx⟩ | hold
        · rw [getD_set_self _ _ _ hlt] at hj
          exact fun hd => hj ((closeCall_done_iff _).mpr hd)
        · exact hold
      exact hinv.2 i j hi' hj'

/-- `handleClose` preserves the invariant whenever its receiver has no
`connecting` socket and at most one pending socket. -/
theorem handleClose_inv (s : WebSocketService) (code : Nat)
    (hnoconn : ∀ i, s.socks.getD i .done ≠ .connecting)
    (hpair : ∀ i j, s.socks.getD i .done ≠ .done → s.socks.getD j .done ≠ .done → i = j) :
    (s.handleClose code).1.invariant := by
  obtain ⟨hso, hcu, _, _⟩ := handleClose_spec s code
  constructor
  · intro i hci
    rw [hso] at hci
    exact absurd hci (hnoconn i)
  · intro i j hi hj
    rw [hso] at hi hj
    exact hpair i j hi hj

/-- `handleOpen` preserves the invariant whenever its receiver has no
`connecting` socket and at most one pending socket. -/
theorem handleOpen_inv (s : WebSocketService)
    (hnoconn : ∀ i, s.socks.getD i .done ≠ .connecting)
    (hpair : ∀ i j, s.socks.getD i .done ≠ .done → s.socks.getD j .done ≠ .done → i = j) :
    (s.handleOpen).1.invariant := by
  obtain ⟨hso, hcu, _, _⟩ := handleOpen_spec s
  constructor
  · intro i hci
    rw [hso] at hci
    exact absurd hci (hnoconn i)
  · intro i j hi hj
    rw [hso] at hi hj
    exact hpair i j hi hj

/-- `disconnect` preserves the invariant. -/
theorem disconnect_inv (s : WebSocketService) (hinv : s.invariant) :
    (s.disconnect).1.invariant := by
  unfold WebSocketService.disconnect
  dsimp only
  exact closeConnection_inv _ .MANUAL (invariant_congr rfl rfl rfl hinv)

/-- `destroy` preserves the invariant. -/
theorem destroy_inv (s : WebSocketService) (hinv : s.invariant) :
    (s.destroy).1.invariant := by
  unfold WebSocketService.destroy
  dsimp only
  exact invariant_congr rfl rfl rfl (disconnect_inv _ (invariant_congr rfl rfl rfl hinv))

/-- On a quiet socket list, a non-`done` lookup in `socks ++ [connecting]`
is exactly the fresh index. -/
theorem quiet_append_nonDone {s : WebSocketService} (hq : s.socksQuiet = true)
    {m : Nat} (hm : (s.socks ++ [SocketPhase.connecting]).getD m .done ≠ .done) :
    m = s.socks.length := by
  rw [getD_append_single] at hm
  split_ifs at hm with h1 h2
  · exact absurd (socksQuiet_getD hq m) hm
  · exact h2
  · exact absurd rfl hm

/-- `connect` on a quiet socket list preserves the invariant. -/
theorem connect_inv_quiet (s : WebSocketService) (hq : s.socksQuiet = true)
    (hinv : s.invariant) : (s.connect).1.invariant := by
  rcases connect_spec s with ⟨hid, _⟩ | ⟨hst, hso, hcu⟩
  · rw [hid]
    exact hinv
  · constructor
    · intro m hcm
      rw [hso, getD_append_single] at hcm
      split_ifs at hcm with h1 h2
      · rw [socksQuiet_getD hq m] at hcm
        exact absurd hcm (fun h => SocketPhase.noConfusion h)
      · subst h2
        exact ⟨hst, by rw [hcu]⟩
    · intro m n hm hn
      rw [hso] at hm hn
      rw [quiet_append_nonDone hq hm, quiet_append_nonDone hq hn]

/-- Every `state_change` emitted by `disconnect` targets `CLOSED`. -/
theorem disconnect_targets (s : WebSocketService) :
    ∀ pr cu, (pr, cu) ∈ scPairs (s.disconnect).2 → cu = .CLOSED := by
  unfold WebSocketService.disconnect
  dsimp only
  exact (closeConnection_chain _ .MANUAL).2

/-- Every `state_change` emitted by `destroy` targets `CLOSED`. -/
theorem destroy_targets (s : WebSocketService) :
    ∀ pr cu, (pr, cu) ∈ scPairs (s.destroy).2 → cu = .CLOSED := by
  unfold WebSocketService.destroy
  dsimp only
  exact disconnect_targets _

/-- Transport a property of a result pair along its equation. -/
theorem pair_eq_elim {X : WebSocketService × List WebSocketEvent}
    {s' : WebSocketService} {evs : List WebSocketEvent} (h : X = (s', evs))
    (P : WebSocketService → List WebSocketEvent → Prop) (hP : P X.1 X.2) :
    P s' evs := by
  rw [h] at hP
  exact hP

/-- One restricted step preserves the invariant, and every `state_change`
into `CONNECTED` it emits departs from `CONNECTING`. -/
theorem stepQuiet_spec (s : WebSocketService) (l : WsLabel) (s' : WebSocketService)
    (evs : List WebSocketEvent) (hinv : s.invariant)
    (h : s.stepQuiet l = some (s', evs)) :
    s'.invariant ∧
    ∀ pr, (pr, WebSocketState.CONNECTED) ∈ scPairs evs → pr = .CONNECTING := by
  unfold WebSocketService.stepQuiet at h
  split_ifs at h with hguard
  cases l with
  | callConnect =>
    have hq : s.socksQuiet = true := by
      cases hsq : s.socksQuiet
      · exact absurd ⟨rfl, hsq⟩ hguard
      · rfl
    simp only [WebSocketService.step] at h
    refine pair_eq_elim (Option.some.inj h) (fun a b => a.invariant ∧ ∀ pr, (pr, WebSocketState.CONNECTED) ∈ scPairs b → pr = .CONNECTING) ⟨?_, ?_⟩
    · exact connect_inv_quiet s hq hinv
    · intro pr hm
      exact absurd (connect_targets s pr .CONNECTED hm)
        (fun hh => WebSocketState.noConfusion hh)
  | callDisconnect =>
    simp only [WebSocketService.step] at h
    refine pair_eq_elim (Option.some.inj h) (fun a b => a.invariant ∧ ∀ pr, (pr, WebSocketState.CONNECTED) ∈ scPairs b → pr = .CONNECTING) ⟨?_, ?_⟩
    · exact disconnect_inv s hinv
    · intro pr hm
      exact absurd (disconnect_targets s pr .CONNECTED hm)
        (fun hh => WebSocketState.noConfusion hh)
  | callDestroy =>
    simp only [WebSocketService.step] at h
    refine pair_eq_elim (Option.some.inj h) (fun a b => a.invariant ∧ ∀ pr, (pr, WebSocketState.CONNECTED) ∈ scPairs b → pr = .CONNECTING) ⟨?_, ?_⟩
    · exact destroy_inv s hinv
    · intro pr hm
      exact absurd (destroy_targets s pr .CONNECTED hm)
        (fun hh => WebSocketState.noConfusion hh)
  | callSend c q hs he now =>
    simp only [WebSocketService.step] at h
    refine pair_eq_elim (Option.some.inj h) (fun a b => a.invariant ∧ ∀ pr, (pr, WebSocketState.CONNECTED) ∈ scPairs b → pr = .CONNECTING) ⟨?_, ?_⟩
    · exact invariant_congr (send_fields s c ⟨q, hs, he⟩ now).1
        (send_fields s c ⟨q, hs, he⟩ now).2.2.1
        (send_fields s c ⟨q, hs, he⟩ now).2.1 hinv
    · intro pr hm
      rw [(send_fields s c ⟨q, hs, he⟩ now).2.2.2] at hm
      exact absurd hm (List.not_mem_nil _)
  | callSetAuth b =>
    simp only [WebSocketService.step] at h
    refine pair_eq_elim (Option.some.inj h) (fun a b => a.invariant ∧ ∀ pr, (pr, WebSocketState.CONNECTED) ∈ scPairs b → pr = .CONNECTING) ⟨?_, ?_⟩
    · exact invariant_congr (setAuthenticated_fields s b).1
        (setAuthenticated_fields s b).2.2.1
        (setAuthenticated_fields s b).2.1 hinv
    · intro pr hm
      rw [(setAuthenticated_fields s b).2.2.2] at hm
      exact absurd hm (List.not_mem_nil _)
  | socketOpen i =>
    simp only [WebSocketService.step] at h
    split_ifs at h with hc
    obtain ⟨hstC, hcur⟩ := hinv.1 i hc
    have hlt : i < s.socks.length :=
      lt_of_getD_ne_done (by rw [hc]; exact fun hh => SocketPhase.noConfusion hh)
    refine pair_eq_elim (Option.some.inj h) (fun a b => a.invariant ∧ ∀ pr, (pr, WebSocketState.CONNECTED) ∈ scPairs b → pr = .CONNECTING) ⟨?_, ?_⟩
    · apply handleOpen_inv
      · intro m hcm
        rcases connecting_of_set hcm with ⟨hx, _⟩ | hold
        · exact SocketPhase.noConfusion hx
        · have hmi : m = i := hinv.2 m i
            (by rw [hold]; exact fun hh => SocketPhase.noConfusion hh)
            (by rw [hc]; exact fun hh => SocketPhase.noConfusion hh)
          subst hmi
          rw [getD_set_self _ _ _ hlt] at hcm
          exact SocketPhase.noConfusion hcm
      · intro m n hm hn
        have hm' : s.socks.getD m .done ≠ .done := by
          rcases nonDone_of_set hm with ⟨rfl, _, _⟩ | hold
          · rw [hc]; exact fun hh => SocketPhase.noConfusion hh
          · exact hold
        have hn' : s.socks.getD n .done ≠ .done := by
          rcases nonDone_of_set hn with ⟨rfl, _, _⟩ | hold
          · rw [hc]; exact fun hh => SocketPhase.noConfusion hh
          · exact hold
        exact hinv.2 m n hm' hn'
    · intro pr hm
      have hh := (handleOpen_spec _).2.2.2 pr .CONNECTED hm
      have hps : pr = s.state := hh.1
      rw [hps, hstC]
  | socketClose i code =>
    simp only [WebSocketService.step] at h
    split_ifs at h with hc
    have hlt : i < s.socks.length := lt_of_getD_ne_done hc
    refine pair_eq_elim (Option.some.inj h) (fun a b => a.invariant ∧ ∀ pr, (pr, WebSocketState.CONNECTED) ∈ scPairs b → pr = .CONNECTING) ⟨?_, ?_⟩
    · apply handleClose_inv
      · intro m hcm
        rcases connecting_of_set hcm with ⟨hx, _⟩ | hold
        · exact SocketPhase.noConfusion hx
        · have hmi : m = i := hinv.2 m i
            (by rw [hold]; exact fun hh => SocketPhase.noConfusion hh) hc
          subst hmi
          rw [getD_set_self _ _ _ hlt] at hcm
          exact SocketPhase.noConfusion hcm
      · intro m n hm hn
        have hm' : s.socks.getD m .done ≠ .done := by
          rcases nonDone_of_set hm with ⟨rfl, _, hx⟩ | hold
          · exact absurd rfl hx
          · exact hold
        have hn' : s.socks.getD n .done ≠ .done := by
          rcases nonDone_of_set hn with ⟨rfl, _, hx⟩ | hold
          · exact absurd rfl hx
          · exact hold
        exact hinv.2 m n hm' hn'
    · intro pr hm
      rcases (handleClose_spec _ code).2.2.2 pr .CONNECTED hm with hcl | hrc
      · exact absurd hcl (fun hh => WebSocketState.noConfusion hh)
      · exact absurd hrc (fun hh => WebSocketState.noConfusion hh)
  | connectTimeoutFire =>
    simp only [WebSocketService.step] at h
    split_ifs at h with hc hs2
    · refine pair_eq_elim (Option.some.inj h) (fun a b => a.invariant ∧ ∀ pr, (pr, WebSocketState.CONNECTED) ∈ scPairs b → pr = .CONNECTING) ⟨?_, ?_⟩
      · exact closeConnection_inv _ .TIMEOUT (invariant_congr rfl rfl rfl hinv)
      · intro pr hm
        exact absurd ((closeConnection_chain _ .TIMEOUT).2 pr .CONNECTED hm)
          (fun hh => WebSocketState.noConfusion hh)
    · refine pair_eq_elim (Option.some.inj h) (fun a b => a.invariant ∧ ∀ pr, (pr, WebSocketState.CONNECTED) ∈ scPairs b → pr = .CONNECTING) ⟨?_, ?_⟩
      · exact invariant_congr rfl rfl rfl hinv
      · intro pr hm
        exact absurd hm (List.not_mem_nil _)
  | reconnectTimerFire =>
    have hq : s.socksQuiet = true := by
      cases hsq : s.socksQuiet
      · exact absurd ⟨rfl, hsq⟩ hguard
      · rfl
    simp only [WebSocketService.step] at h
    split_ifs at h with hc
    refine pair_eq_elim (Option.some.inj h) (fun a b => a.invariant ∧ ∀ pr, (pr, WebSocketState.CONNECTED) ∈ scPairs b → pr = .CONNECTING) ⟨?_, ?_⟩
    · exact connect_inv_quiet _ hq (invariant_congr rfl rfl rfl hinv)
    · intro pr hm
      exact absurd (connect_targets _ pr .CONNECTED hm)
        (fun hh => WebSocketState.noConfusion hh)
  | hbTick =>
    simp only [WebSocketService.step] at h
    split_ifs at h with hc hs2
    · refine pair_eq_elim (Option.some.inj h) (fun a b => a.invariant ∧ ∀ pr, (pr, WebSocketState.CONNECTED) ∈ scPairs b → pr = .CONNECTING) ⟨?_, ?_⟩
      · exact invariant_congr rfl rfl rfl hinv
      · intro pr hm
        exact absurd hm (List.not_mem_nil _)
    · refine pair_eq_elim (Option.some.inj h) (fun a b => a.invariant ∧ ∀ pr, (pr, WebSocketState.CONNECTED) ∈ scPairs b → pr = .CONNECTING) ⟨?_, ?_⟩
      · exact invariant_congr rfl rfl rfl hinv
      · intro pr hm
        exact absurd hm (List.not_mem_nil _)
  | hbTimeoutFire =>
    simp only [WebSocketService.step] at h
    split_ifs at h with hc
    refine pair_eq_elim (Option.some.inj h) (fun a b => a.invariant ∧ ∀ pr, (pr, WebSocketState.CONNECTED) ∈ scPairs b → pr = .CONNECTING) ⟨?_, ?_⟩
    · exact closeConnection_inv _ .TIMEOUT (invariant_congr rfl rfl rfl hinv)
    · intro pr hm
      exact absurd ((closeConnection_chain _ .TIMEOUT).2 pr .CONNECTED hm)
        (fun hh => WebSocketState.noConfusion hh)

/-- Along any restricted run from an invariant-satisfying state, every
`state_change` into `CONNECTED` departs from `CONNECTING`. -/
theorem runTraceQuiet_targets (trace : List WsLabel) (s s' : WebSocketService)
    (evs : List WebSocketEvent) (hinv : s.invariant)
    (h : s.runTraceQuiet trace = some (s', evs)) :
    ∀ pr, (pr, WebSocketState.CONNECTED) ∈ scPairs evs → pr = .CONNECTING := by
  induction trace generalizing s evs with
  | nil =>
    simp only [WebSocketService.runTraceQuiet, Option.some.injEq] at h
    intro pr hm
    have hevs : ([] : List WebSocketEvent) = evs := congrArg Prod.snd h
    rw [← hevs] at hm
    exact absurd hm (List.not_mem_nil _)
  | cons l ls ih =>
    simp only [WebSocketService.runTraceQuiet] at h
    rcases hstep : s.stepQuiet l with _ | p
    · rw [hstep] at h
      exact absurd h (by simp)
    · rw [hstep] at h
      obtain ⟨s1, e1⟩ := p
      dsimp only at h
      rcases hrun : s1.runTraceQuiet ls with _ | q
      · rw [hrun] at h
        exact absurd h (by simp)
      · rw [hrun] at h
        obtain ⟨s2, e2⟩ := q
        dsimp only at h
        simp only [Option.some.injEq] at h
        have hs2 : s2 = s' := congrArg Prod.fst h
        have hevs : e1 ++ e2 = evs := congrArg Prod.snd h
        subst hs2
        subst hevs
        obtain ⟨hinv1, htgt1⟩ := stepQuiet_spec s l s1 e1 hinv hstep
        intro pr hm
        rw [scPairs_append] at hm
        rcases List.mem_append.mp hm with hm1 | hm2
        · exact htgt1 pr hm1
        · exact ih s1 e2 hinv1 hrun pr hm2

-- ============================================================================
-- C6: state transitions and state_change events
-- ============================================================================

/-- C6 counterexample: the overlapping-socket race is reachable (all five
labels are deliverable in order) and its log contains a `state_change` event
directly from `CLOSED` to `CONNECTED`: after the connect-timeout closes
socket 0 and a second `connect()` creates socket 1, the stale close event of
socket 0 is handled while socket 1 is still connecting, driving the state to
`CLOSED` (auto-reconnect off); socket 1's `open` then transitions
`CLOSED → CONNECTED` without any intervening `CONNECTING` change. -/
theorem claim_C6_counterexample :
    ((WebSocketService.make cfgC6).runTrace c6trace).isSome = true ∧
    WebSocketEvent.state_change .CLOSED .CONNECTED ∈ c6run.2 := by
  decide

/-- C6 (amended): (a) in every execution, the emitted `state_change` events
form a gap-free chain of genuine changes from the initial `CLOSED` to the
final state — exactly one event per actual change, none when a state is set
to its current value; (b) provided `connect()` never creates a socket while
an earlier socket's close event is still undelivered, no `state_change` ever
goes directly into `CONNECTED` except from `CONNECTING` (without that
proviso, the counterexample's stale-close race yields a direct
`CLOSED → CONNECTED` transition). -/
theorem claim_C6_theorem :
    (∀ (cfg : WebSocketConfig) (trace : List WsLabel) (s' : WebSocketService)
        (evs : List WebSocketEvent),
      (WebSocketService.make cfg).runTrace trace = some (s', evs) →
      stateChainB .CLOSED (scPairs evs) s'.state = true) ∧
    (∀ (cfg : WebSocketConfig) (trace : List WsLabel) (s' : WebSocketService)
        (evs : List WebSocketEvent),
      (WebSocketService.make cfg).runTraceQuiet trace = some (s', evs) →
      ∀ pr, (pr, WebSocketState.CONNECTED) ∈ scPairs evs → pr = .CONNECTING) := by
  constructor
  · intro cfg trace s' evs h
    exact runTrace_chain trace (WebSocketService.make cfg) s' evs h
  · intro cfg trace s' evs h
    exact runTraceQuiet_targets trace (WebSocketService.make cfg) s' evs
      (invariant_make cfg) h

/-- C6 witness: on the ordinary connect-then-open run, the log chains
`CLOSED` to the final `CONNECTED` state, and the (only) transition into
`CONNECTED` departs from `CONNECTING`. -/
theorem claim_C6_witness :
    stateChainB .CLOSED (scPairs c6wrun.2) c6wrun.1.state = true ∧
    WebSocketState.CONNECTING = WebSocketState.CONNECTING :=
  ⟨claim_C6_theorem.1 defaultConfig c6wtrace c6wrun.1 c6wrun.2 (by decide),
   claim_C6_theorem.2 defaultConfig c6wtrace c6wrun.1 c6wrun.2 (by decide)
     .CONNECTING (by decide)⟩

/-- C1 witness: for the manual-flag/code combination of the timeout scenario
the derived reason is not `TIMEOUT`. -/
theorem claim_C1_witness :
    decide (deriveCloseReason false 1006 = DisconnectReason.TIMEOUT) = false :=
  decide_eq_false (claim_C1_theorem.1 false 1006)

/-- C10 witness: an authenticated service handling a code-1000 close ends
unauthenticated, emits `disconnected` with `wasAuthenticated = true`, and
emits no `auth_change`. -/
theorem claim_C10_witness :
    ({ WebSocketService.make defaultConfig with
        isAuthenticated := true } : WebSocketService).handleClose 1000
      |>.1.isAuthenticated = false ∧
    WebSocketEvent.disconnected
        (deriveCloseReason ({ WebSocketService.make defaultConfig with
          isAuthenticated := true } : WebSocketService).isManualDisconnect 1000) 1000
        ({ WebSocketService.make defaultConfig with
          isAuthenticated := true } : WebSocketService).isAuthenticated
      ∈ (({ WebSocketService.make defaultConfig with
          isAuthenticated := true } : WebSocketService).handleClose 1000).2 ∧
    decide (WebSocketEvent.auth_change true
      ∈ (({ WebSocketService.make defaultConfig with
          isAuthenticated := true } : WebSocketService).handleClose 1000).2) = false :=
  ⟨(claim_C10_theorem _ 1000).1, (claim_C10_theorem _ 1000).2.1,
   decide_eq_false ((claim_C10_theorem _ 1000).2.2 true)⟩
